import Mathlib

/-!
Verification of the climate-pipeline core logic (run observability store,
ingestion windowing, temporal train/test split, metric logging, inference
thresholding) against its natural-language specification.

The definitions below are a shallow embedding of the Python sources:

- src/climate_pipeline/observability/run_logger.py
- src/climate_pipeline/cli/health.py
- src/climate_pipeline/ingestion/fetch_daily_weather.py
- src/climate_pipeline/ml/train.py
- src/climate_pipeline/ml/predict.py

Modelling conventions:

- calendar dates carried by the warehouse are day numbers (an integer);
  subtracting two of them is exactly the Python expression
  (today - other).days on date values;
- timestamps (started_at and friends) are integers;
- Python float metric values are modelled as a tagged type FVal that
  distinguishes finite values (as rationals) from the float nan produced
  by float with the string nan, because the spec speaks about finiteness
  and placeholder values;
- the remote HTTP fetch is an oracle function indexed by attempt number,
  returning either a payload or an exception (Except.error), exactly the
  two outcomes the retry loop in fetch_daily_with_retries distinguishes;
- the artifact directory used by run_backfill and run_recent is the set
  of (city slug, year) pairs for which a json file exists, as a list;
- SQL aggregates are folds over the embedded table contents: MAX over an
  empty table is none, ORDER BY started_at DESC LIMIT 1 picks a row with
  the maximal started_at.
-/

namespace Climate

/-- Tagged model of a Python float metric value: either a finite value or
the non-finite placeholder nan. -/
inductive FVal where
  | finite (q : ℚ) : FVal
  | nan : FVal
deriving DecidableEq, Repr

/-- True exactly on finite float values. -/
def FVal.isFinite : FVal → Bool
  | .finite _ => true
  | .nan => false

-- ==========================================================================
-- run_logger.py : data classes
-- ==========================================================================

/-- Embedding of the dataclass PipelineRunRecord in run_logger.py (the id
column is assigned at insert time by log_pipeline_run, so it is not a field
of the record handed to the store, matching the Python dataclass). -/
structure PipelineRunRecord where
  flow_name : String
  run_mode : String
  status : String
  started_at : Int
  finished_at : Int
  rows_bronze : Int
  rows_gold_ml : Int
  rows_bronze_delta : Int
  rows_gold_ml_delta : Int
  bronze_max_date : Option Int
  gold_ml_max_date : Option Int
  freshness_status : String
deriving DecidableEq, Repr

/-- Physical row of the pipeline_run_log table: the assigned id plus the
record payload. -/
structure RunLogRow where
  id : Int
  payload : PipelineRunRecord
deriving DecidableEq, Repr

/-- Embedding of the dataclass MLMetricRecord in run_logger.py.  The float
fields use FVal because train.py can hand them float nan. -/
structure MLMetricRecord where
  pipeline_run_id : Option Int
  flow_name : String
  run_mode : String
  model_name : String
  model_version : String
  train_size : Int
  test_size : Int
  positive_class_ratio : FVal
  accuracy : FVal
  roc_auc : FVal
  precision_0 : FVal
  recall_0 : FVal
  f1_0 : FVal
  precision_1 : FVal
  recall_1 : FVal
  f1_1 : FVal
  created_at : Int
deriving DecidableEq, Repr

/-- Physical row of the pipeline_ml_metrics table. -/
structure MlMetricsRow where
  id : Int
  payload : MLMetricRecord
deriving DecidableEq, Repr

/-- Embedding of the dataclass PipelineRunStats in run_logger.py.  The
gold_ml_max_date is kept as the (year, month) pair from which the Python
code synthesizes date(year, month, 1). -/
structure PipelineRunStats where
  rows_bronze : Int
  rows_gold_ml : Int
  rows_bronze_delta : Int
  rows_gold_ml_delta : Int
  bronze_max_date : Option Int
  gold_ml_max_date : Option (Int × Int)
  freshness_status : String
deriving DecidableEq, Repr

/-- The warehouse state that compute_run_stats reads via SQL: row counts
and max dates of the two externally produced tables, and the contents of
the pipeline_run_log table. -/
structure Warehouse where
  bronze_count : Int
  gold_ml_count : Int
  bronze_max_date : Option Int
  gold_latest_month : Option (Int × Int)
  pipeline_run_log : List RunLogRow
deriving Repr

-- ==========================================================================
-- run_logger.py : compute_run_stats
-- ==========================================================================

/-- Model of the SQL query SELECT ... FROM pipeline_run_log WHERE status =
success ORDER BY started_at DESC LIMIT 1, applied to an already filtered
list: pick a row with maximal started_at (the first such row in table
order, as DuckDB may return any of the tied rows). -/
def maxByStartedAt : List RunLogRow → Option RunLogRow
  | [] => none
  | r :: rs =>
    match maxByStartedAt rs with
    | none => some r
    | some b => if b.payload.started_at > r.payload.started_at then some b else some r

/-- The most recent successful run: filter on status = success, then take
the row with the greatest started_at. -/
def lastSuccess (log : List RunLogRow) : Option RunLogRow :=
  maxByStartedAt (log.filter (fun r => r.payload.status == "success"))

/-- Embedding of compute_run_stats in run_logger.py.  The argument today
is the value of datetime.now(timezone.utc).date() as a day number; the
lag below is exactly (today - bronze_max_date).days. -/
def compute_run_stats (w : Warehouse) (today : Int) : PipelineRunStats :=
  let rows_bronze := w.bronze_count
  let rows_gold_ml := w.gold_ml_count
  let bronze_max_date := w.bronze_max_date
  let gold_ml_max_date := w.gold_latest_month
  let deltas : Int × Int :=
    match lastSuccess w.pipeline_run_log with
    | none => (rows_bronze, rows_gold_ml)
    | some prev =>
      (rows_bronze - prev.payload.rows_bronze, rows_gold_ml - prev.payload.rows_gold_ml)
  let freshness_status :=
    match bronze_max_date with
    | none => "unknown"
    | some d =>
      let lag_days := today - d
      if lag_days ≤ 1 then "fresh"
      else if lag_days ≤ 7 then "stale"
      else "very_stale"
  { rows_bronze := rows_bronze
    rows_gold_ml := rows_gold_ml
    rows_bronze_delta := deltas.1
    rows_gold_ml_delta := deltas.2
    bronze_max_date := bronze_max_date
    gold_ml_max_date := gold_ml_max_date
    freshness_status := freshness_status }

-- ==========================================================================
-- health.py : _classify_freshness
-- ==========================================================================

/-- Embedding of the function with the name underscore classify_freshness
in cli/health.py, which mirrors the freshness logic of compute_run_stats. -/
def classifyFreshness (today : Int) (max_date : Option Int) : String :=
  match max_date with
  | none => "unknown"
  | some d =>
    let lag_days := today - d
    if lag_days ≤ 1 then "fresh"
    else if lag_days ≤ 7 then "stale"
    else "very_stale"

-- ==========================================================================
-- run_logger.py : log_pipeline_run / log_ml_metrics
-- ==========================================================================

/-- SQL MAX over a list of values: none on an empty table. -/
def sqlMax : List Int → Option Int
  | [] => none
  | i :: ids =>
    match sqlMax ids with
    | none => some i
    | some m => some (max m i)

/-- Embedding of the helper with the name underscore compute_next_id in
run_logger.py: SELECT COALESCE(MAX(id) + 1, 1) FROM pipeline_run_log. -/
def computeNextIdRun (log : List RunLogRow) : Int :=
  match sqlMax (log.map (fun r => r.id)) with
  | none => 1
  | some m => m + 1

/-- Embedding of the id generation in log_ml_metrics:
SELECT COALESCE(MAX(id), 0) + 1 FROM pipeline_ml_metrics. -/
def computeNextIdMl (log : List MlMetricsRow) : Int :=
  (match sqlMax (log.map (fun r => r.id)) with
   | none => 0
   | some m => m) + 1

/-- Embedding of log_pipeline_run in run_logger.py: compute the next id and
insert exactly one row at the end of the table. -/
def log_pipeline_run (log : List RunLogRow) (record : PipelineRunRecord) :
    List RunLogRow :=
  log ++ [{ id := computeNextIdRun log, payload := record }]

/-- Embedding of log_ml_metrics in run_logger.py: compute the next id and
insert exactly one row at the end of the table. -/
def log_ml_metrics (log : List MlMetricsRow) (record : MLMetricRecord) :
    List MlMetricsRow :=
  log ++ [{ id := computeNextIdMl log, payload := record }]

-- ==========================================================================
-- fetch_daily_weather.py : data model and date helpers
-- ==========================================================================

/-- Embedding of the dataclass City in fetch_daily_weather.py. -/
structure City where
  city_id : Int
  city_name : String
  country_code : String
  latitude : ℚ
  longitude : ℚ
  timezone : String
deriving DecidableEq, Repr

/-- Embedding of the dataclass IngestionSummary in fetch_daily_weather.py. -/
structure IngestionSummary where
  mode : String
  total_cities : Nat
  total_requests : Nat
  successes : Nat
  failures : Nat
  failed_cities : List String
deriving DecidableEq, Repr

/-- Calendar date with the ordering Python date values use. -/
structure Date where
  year : Nat
  month : Nat
  day : Nat
deriving DecidableEq, Repr

/-- Lexicographic strict order on dates, matching comparison of Python
date values. -/
def Date.ltB (a b : Date) : Bool :=
  if a.year < b.year then true
  else if b.year < a.year then false
  else if a.month < b.month then true
  else if b.month < a.month then false
  else decide (a.day < b.day)

/-- Python max of two dates (keeps the first argument unless the second is
strictly greater). -/
def Date.maxD (a b : Date) : Date :=
  if Date.ltB a b then b else a

/-- Python min of two dates (keeps the first argument unless the second is
strictly smaller). -/
def Date.minD (a b : Date) : Date :=
  if Date.ltB b a then b else a

/-- Gregorian leap year test. -/
def isLeap (y : Nat) : Bool :=
  (y % 4 == 0 && y % 100 != 0) || y % 400 == 0

/-- Number of days of a month in the Gregorian calendar. -/
def daysInMonth (y m : Nat) : Nat :=
  if m = 2 then (if isLeap y then 29 else 28)
  else if m = 4 || m = 6 || m = 9 || m = 11 then 30
  else 31

/-- The previous calendar day, i.e. the Python expression
today - timedelta(days=1). -/
def predDate (d : Date) : Date :=
  if 1 < d.day then { d with day := d.day - 1 }
  else if 1 < d.month then
    { year := d.year, month := d.month - 1, day := daysInMonth d.year (d.month - 1) }
  else { year := d.year - 1, month := 12, day := 31 }

/-- Embedding of year_range in fetch_daily_weather.py:
list(range(start.year, end.year + 1)). -/
def year_range (start_date end_date : Date) : List Nat :=
  List.range' start_date.year (end_date.year + 1 - start_date.year)

/-- Embedding of clamp_year_window in fetch_daily_weather.py. -/
def clamp_year_window (start_date end_date : Date) (year : Nat) : Date × Date :=
  let year_start : Date := { year := year, month := 1, day := 1 }
  let year_end : Date := { year := year, month := 12, day := 31 }
  (Date.maxD year_start start_date, Date.minD year_end end_date)

/-- Embedding of slugify_city_name in fetch_daily_weather.py. -/
def slugify_city_name (name : String) : String :=
  (name.trim.toLower).replace " " "_"

-- ==========================================================================
-- fetch_daily_weather.py : response validation
-- ==========================================================================

/-- Shape of the daily section of an Open-Meteo response: the optional time
array and the per-variable series, as an association list.  A missing key
is none or an absent entry; values are opaque numbers. -/
structure DailyBlock where
  time : Option (List String)
  series : List (String × List ℚ)
deriving DecidableEq, Repr

/-- Shape of an Open-Meteo daily response payload. -/
structure ApiResponse where
  daily : Option DailyBlock
deriving DecidableEq, Repr

/-- Lookup of one requested variable in the daily section. -/
def lookupSeries (series : List (String × List ℚ)) (v : String) :
    Option (List ℚ) :=
  (series.find? (fun p => p.1 == v)).map (fun p => p.2)

/-- The per-variable loop of validate_daily_response: every requested
variable must be present with a series of length n. -/
def checkVars (daily : DailyBlock) (n : Nat) : List String → Except String Unit
  | [] => .ok ()
  | v :: vs =>
    match lookupSeries daily.series v with
    | none => .error ("Missing daily." ++ v ++ " in response")
    | some s =>
      if s.length ≠ n then
        .error ("daily." ++ v ++ " length mismatch")
      else checkVars daily n vs

/-- Embedding of validate_daily_response in fetch_daily_weather.py: returns
the number of daily records, or the ValueError message it raises. -/
def validate_daily_response (data : ApiResponse) (daily_vars : List String) :
    Except String Nat :=
  match data.daily with
  | none => .error "Missing daily key in response"
  | some daily =>
    match daily.time with
    | none => .error "Missing daily.time in response"
    | some times =>
      if times.length = 0 then .error "daily.time is empty or not a list"
      else
        match checkVars daily times.length daily_vars with
        | .error e => .error e
        | .ok _ => .ok times.length

-- ==========================================================================
-- fetch_daily_weather.py : retry loop
-- ==========================================================================

/-- Observable outcome of fetch_daily_with_retries: the returned pair
(data, record_count), the number of attempts performed, and the sequence of
backoff sleeps executed between consecutive attempts. -/
structure FetchOutcome where
  result : Option ApiResponse
  records : Nat
  attemptsMade : Nat
  sleeps : List ℚ
deriving DecidableEq, Repr

/-- One attempt of the body of the retry loop: call the client (the oracle
fetchA, indexed by attempt number, models client.fetch_daily_history and
its possible exceptions) and validate the payload. -/
def attemptFetch (fetchA : Nat → Except String ApiResponse)
    (daily_vars : List String) (attempt : Nat) :
    Except String (ApiResponse × Nat) :=
  match fetchA attempt with
  | .error e => .error e
  | .ok data =>
    match validate_daily_response data daily_vars with
    | .error e => .error e
    | .ok n => .ok (data, n)

/-- The while loop of fetch_daily_with_retries, with explicit fuel (the
loop body runs at most max_retries times, so the fuel never runs out when
started at max_retries + 1). -/
def fetchRetryGo (tryAt : Nat → Except String (ApiResponse × Nat))
    (max_retries : Nat) (base_delay : ℚ) : Nat → Nat → FetchOutcome
  | _, 0 => { result := none, records := 0, attemptsMade := 0, sleeps := [] }
  | attempt, fuel + 1 =>
    if attempt > max_retries then
      { result := none, records := 0, attemptsMade := attempt - 1, sleeps := [] }
    else
      match tryAt attempt with
      | .ok (data, n) =>
        { result := some data, records := n, attemptsMade := attempt, sleeps := [] }
      | .error _ =>
        if attempt = max_retries then
          { result := none, records := 0, attemptsMade := attempt, sleeps := [] }
        else
          let s := base_delay * 2 ^ (attempt - 1)
          let rest := fetchRetryGo tryAt max_retries base_delay (attempt + 1) fuel
          { result := rest.result
            records := rest.records
            attemptsMade := rest.attemptsMade
            sleeps := s :: rest.sleeps }

/-- Embedding of fetch_daily_with_retries in fetch_daily_weather.py. -/
def fetch_daily_with_retries (fetchA : Nat → Except String ApiResponse)
    (daily_vars : List String) (max_retries : Nat) (base_delay : ℚ) :
    FetchOutcome :=
  fetchRetryGo (attemptFetch fetchA daily_vars) max_retries base_delay 1
    (max_retries + 1)

-- ==========================================================================
-- fetch_daily_weather.py : run_backfill and run_recent
-- ==========================================================================

/-- The set of landing artifacts on disk, as (city slug, year) pairs for
which a json file exists. -/
abbrev Artifacts := List (String × Nat)

/-- Running counters of an ingestion run (the local variables
total_requests, successes, failures, failed_cities of run_backfill and
run_recent; failed_cities is accumulated as a list and deduplicated and
sorted when the summary is built, like the Python set). -/
structure Tally where
  total_requests : Nat
  successes : Nat
  failures : Nat
  failed_cities : List String
deriving DecidableEq, Repr

/-- Initial counters. -/
def Tally.init : Tally :=
  { total_requests := 0, successes := 0, failures := 0, failed_cities := [] }

/-- Fetch oracle for a whole run: the outcome of each client call, indexed
by city, requested window and attempt number. -/
def FetchOracle := City → Date → Date → Nat → Except String ApiResponse

/-- The sorted(set(...)) applied to failed_cities when the summary is
built. -/
def sortedDedup (l : List String) : List String :=
  (l.dedup).mergeSort (fun a b => a ≤ b)

/-- The body of the inner loop of run_backfill for one (city, year)
window: skip windows outside the global range, skip already materialized
windows without a request, otherwise count the request, fetch with
retries, and either record the failure or write the artifact. -/
def stepWindow (fetchA : FetchOracle) (daily_vars : List String)
    (max_retries : Nat) (base_delay : ℚ) (start_date end_date : Date)
    (acc : Tally × Artifacts) (city : City) (year : Nat) : Tally × Artifacts :=
  let year_start := (clamp_year_window start_date end_date year).1
  let year_end := (clamp_year_window start_date end_date year).2
  if Date.ltB year_end year_start then acc
  else if (slugify_city_name city.city_name, year) ∈ acc.2 then acc
  else
    let out := fetch_daily_with_retries (fetchA city year_start year_end)
      daily_vars max_retries base_delay
    match out.result with
    | none =>
      ({ total_requests := acc.1.total_requests + 1
         successes := acc.1.successes
         failures := acc.1.failures + 1
         failed_cities := city.city_name :: acc.1.failed_cities }, acc.2)
    | some _ =>
      ({ total_requests := acc.1.total_requests + 1
         successes := acc.1.successes + 1
         failures := acc.1.failures
         failed_cities := acc.1.failed_cities },
        List.insert (slugify_city_name city.city_name, year) acc.2)

/-- Embedding of run_backfill in fetch_daily_weather.py: iterate over the
cities and, per city, over the calendar years of the global window. -/
def run_backfill (cities : List City) (start_date end_date : Date)
    (fetchA : FetchOracle) (daily_vars : List String) (max_retries : Nat)
    (base_delay : ℚ) (fs0 : Artifacts) : IngestionSummary × Artifacts :=
  let years := year_range start_date end_date
  let res := cities.foldl
    (fun acc city =>
      years.foldl
        (fun a y =>
          stepWindow fetchA daily_vars max_retries base_delay start_date
            end_date a city y)
        acc)
    (Tally.init, fs0)
  ({ mode := "backfill"
     total_cities := cities.length
     total_requests := res.1.total_requests
     successes := res.1.successes
     failures := res.1.failures
     failed_cities := sortedDedup res.1.failed_cities }, res.2)

/-- The body of the per-city loop of run_recent: always request the
year-to-date window and overwrite the current-year artifact on success. -/
def stepRecentCity (fetchA : FetchOracle) (daily_vars : List String)
    (max_retries : Nat) (base_delay : ℚ) (year_start end_date : Date)
    (current_year : Nat) (acc : Tally × Artifacts) (city : City) :
    Tally × Artifacts :=
  let out := fetch_daily_with_retries (fetchA city year_start end_date)
    daily_vars max_retries base_delay
  match out.result with
  | none =>
    ({ total_requests := acc.1.total_requests + 1
       successes := acc.1.successes
       failures := acc.1.failures + 1
       failed_cities := city.city_name :: acc.1.failed_cities }, acc.2)
  | some _ =>
    ({ total_requests := acc.1.total_requests + 1
       successes := acc.1.successes + 1
       failures := acc.1.failures
       failed_cities := acc.1.failed_cities },
      List.insert (slugify_city_name city.city_name, current_year) acc.2)

/-- Embedding of run_recent in fetch_daily_weather.py: fetch
[Jan 1 of the current year, yesterday] for every city, returning the empty
summary without any request when yesterday precedes the year start. -/
def run_recent (cities : List City) (today : Date) (fetchA : FetchOracle)
    (daily_vars : List String) (max_retries : Nat) (base_delay : ℚ)
    (fs0 : Artifacts) : IngestionSummary × Artifacts :=
  let current_year := today.year
  let end_date := predDate today
  let year_start : Date := { year := current_year, month := 1, day := 1 }
  if Date.ltB end_date year_start then
    ({ mode := "recent"
       total_cities := cities.length
       total_requests := 0
       successes := 0
       failures := 0
       failed_cities := [] }, fs0)
  else
    let res := cities.foldl
      (stepRecentCity fetchA daily_vars max_retries base_delay year_start
        end_date current_year)
      (Tally.init, fs0)
    ({ mode := "recent"
       total_cities := cities.length
       total_requests := res.1.total_requests
       successes := res.1.successes
       failures := res.1.failures
       failed_cities := sortedDedup res.1.failed_cities }, res.2)

/-- Embedding of the exit-code decision at the end of main in
fetch_daily_weather.py: sys.exit(1) exactly when
total_requests == 0 or successes == 0, otherwise the process ends with
exit code 0. -/
def exitCode (s : IngestionSummary) : Nat :=
  if s.total_requests = 0 ∨ s.successes = 0 then 1 else 0

-- ==========================================================================
-- train.py : prepare_data
-- ==========================================================================

/-- One row of the gold_ml_features table as prepare_data sees it: the sort
keys, the values of the fixed feature columns (none modelling NaN), and
the label column (whose nullness prepare_data ignores). -/
structure FeatureRow where
  city_id : Int
  year : Int
  month : Int
  features : List (Option ℚ)
  label : Option ℚ
deriving DecidableEq, Repr

/-- Comparison used by the sort_values call of prepare_data: ascending
lexicographic order on (city_id, year, month). -/
def rowLeB (a b : FeatureRow) : Bool :=
  if a.city_id < b.city_id then true
  else if b.city_id < a.city_id then false
  else if a.year < b.year then true
  else if b.year < a.year then false
  else decide (a.month ≤ b.month)

/-- True on rows with no NaN in any feature column. -/
def rowComplete (r : FeatureRow) : Bool :=
  r.features.all (fun v => v.isSome)

/-- Embedding of prepare_data in train.py: drop rows with NaN features,
sort by (city_id, year, month), check the train fraction, split at
cutoff = int(n * train_fraction), and reject empty partitions.  The value
returned is the pair (training rows, test rows) in split order. -/
def prepare_data (rows : List FeatureRow) (train_fraction : ℚ) :
    Except String (List FeatureRow × List FeatureRow) :=
  let df_clean := rows.filter rowComplete
  let df_sorted := df_clean.mergeSort rowLeB
  if ¬(0 < train_fraction ∧ train_fraction < 1) then
    .error "train_fraction must be between 0 and 1"
  else
    let cutoff := (⌊(df_sorted.length : ℚ) * train_fraction⌋).toNat
    if cutoff = 0 ∨ cutoff = df_sorted.length then
      .error "Train/test split produced an empty split; adjust train_fraction."
    else
      .ok (df_sorted.take cutoff, df_sorted.drop cutoff)

-- ==========================================================================
-- train.py : evaluate_model and the metric record assembly of main
-- ==========================================================================

/-- The metrics dictionary built by evaluate_model in train.py, restricted
to the entries main later reads.  An Option field is none exactly when the
corresponding key is absent from the dictionary. -/
structure MetricsDict where
  accuracy : ℚ
  roc_auc : Option ℚ
  precision_0 : Option ℚ
  recall_0 : Option ℚ
  f1_0 : Option ℚ
  precision_1 : Option ℚ
  recall_1 : Option ℚ
  f1_1 : Option ℚ
  n_test : Nat
  n_pos_1 : Nat
deriving DecidableEq, Repr

/-- The roc_auc entry of the metrics dictionary as evaluate_model builds
it: present only when probabilities are available, the test labels contain
exactly two distinct classes, and roc_auc_score returns a value (the
oracle aucScore, none when it raises ValueError). -/
def rocAucEntry (hasProb : Bool) (nClassesTest : Nat) (aucScore : Option ℚ) :
    Option ℚ :=
  if hasProb && nClassesTest == 2 then aucScore else none

/-- The metrics.get(key, float(nan)) pattern of main in train.py: a missing
dictionary entry becomes the float nan placeholder. -/
def floatOrNan : Option ℚ → FVal
  | some q => .finite q
  | none => .nan

/-- Assembly of the MLMetricRecord in main of train.py from the metrics
dictionary (every optional metric is defaulted to float nan, the positive
class ratio is n_pos / n_test, or nan when n_test is zero). -/
def makeMLMetricRecord (m : MetricsDict) (pipeline_run_id : Option Int)
    (flow_name run_mode model_name model_version : String)
    (train_size test_size : Nat) (created_at : Int) : MLMetricRecord :=
  let positive_ratio : FVal :=
    if 0 < m.n_test then .finite ((m.n_pos_1 : ℚ) / (m.n_test : ℚ)) else .nan
  { pipeline_run_id := pipeline_run_id
    flow_name := flow_name
    run_mode := run_mode
    model_name := model_name
    model_version := model_version
    train_size := train_size
    test_size := test_size
    positive_class_ratio := positive_ratio
    accuracy := .finite m.accuracy
    roc_auc := floatOrNan m.roc_auc
    precision_0 := floatOrNan m.precision_0
    recall_0 := floatOrNan m.recall_0
    f1_0 := floatOrNan m.f1_0
    precision_1 := floatOrNan m.precision_1
    recall_1 := floatOrNan m.recall_1
    f1_1 := floatOrNan m.f1_1
    created_at := created_at }

-- ==========================================================================
-- predict.py : hard predictions at the 0.5 threshold
-- ==========================================================================

/-- The per-row thresholding of main in predict.py:
pred_event = (prob_event >= 0.5).astype(int). -/
def hardPrediction (p : ℚ) : Nat :=
  if 1 / 2 ≤ p then 1 else 0

/-- The vectorized thresholding over all scored rows. -/
def hardPredictions (probs : List ℚ) : List Nat :=
  probs.map hardPrediction

-- ==========================================================================
-- Derived predicates used by the statements below
-- ==========================================================================

/-- True when the (city, year) window clamped to the global [start, end]
range is non-empty, i.e. when run_backfill does not skip the year as
outside the global window. -/
def windowActive (start_date end_date : Date) (year : Nat) : Bool :=
  !Date.ltB (clamp_year_window start_date end_date year).2
    (clamp_year_window start_date end_date year).1

/-- Concrete successful run record used by the witnesses below. -/
def recSuccess : PipelineRunRecord :=
  { flow_name := "daily-climate-pipeline", run_mode := "daily",
    status := "success", started_at := 1, finished_at := 2,
    rows_bronze := 10, rows_gold_ml := 6, rows_bronze_delta := 10,
    rows_gold_ml_delta := 6, bronze_max_date := some 90,
    gold_ml_max_date := some 80, freshness_status := "fresh" }

/-- Concrete failed run record used by the witnesses below. -/
def recFailed : PipelineRunRecord :=
  { flow_name := "daily-climate-pipeline", run_mode := "daily",
    status := "failed", started_at := 5, finished_at := 6,
    rows_bronze := 999, rows_gold_ml := 999, rows_bronze_delta := 0,
    rows_gold_ml_delta := 0, bronze_max_date := some 95,
    gold_ml_max_date := some 85, freshness_status := "fresh" }

/-- Concrete ML metric record used by the witnesses below. -/
def recMl : MLMetricRecord :=
  { pipeline_run_id := some 1, flow_name := "daily-climate-pipeline",
    run_mode := "daily", model_name := "baseline_random_forest",
    model_version := "v1", train_size := 75, test_size := 25,
    positive_class_ratio := .finite (1 / 5), accuracy := .finite (9 / 10),
    roc_auc := .nan, precision_0 := .finite (4 / 5),
    recall_0 := .finite (4 / 5), f1_0 := .finite (4 / 5),
    precision_1 := .finite (1 / 2), recall_1 := .finite (1 / 2),
    f1_1 := .finite (1 / 2), created_at := 0 }

/-- Metrics dictionary produced by evaluate_model on a single-class test
split: the roc_auc key and the class-1 entries are absent. -/
def metricsNoAuc : MetricsDict :=
  { accuracy := 9 / 10, roc_auc := rocAucEntry true 1 (some (1 / 2)),
    precision_0 := some (4 / 5), recall_0 := some (4 / 5),
    f1_0 := some (4 / 5), precision_1 := none, recall_1 := none,
    f1_1 := none, n_test := 25, n_pos_1 := 0 }

/-- Concrete malformed payload used by the witnesses below: the time array
has two entries but the single requested variable has only one value. -/
def badPayload : ApiResponse :=
  { daily := some { time := some ["2026-01-01", "2026-01-02"],
                    series := [("temperature_2m_max", [1])] } }

/-- Concrete well-formed payload used by the witnesses below: one day of
data for the single requested variable. -/
def goodPayload : ApiResponse :=
  { daily := some { time := some ["2026-01-01"],
                    series := [("temperature_2m_max", [7])] } }

/-- Concrete feature rows (one city, four consecutive months, complete
features, the last label null) used by the witnesses below. -/
def frow1 : FeatureRow := { city_id := 1, year := 2020, month := 1, features := [some 1], label := some 0 }

/-- Second concrete feature row. -/
def frow2 : FeatureRow := { city_id := 1, year := 2020, month := 2, features := [some 2], label := some 0 }

/-- Third concrete feature row. -/
def frow3 : FeatureRow := { city_id := 1, year := 2020, month := 3, features := [some 3], label := some 1 }

/-- Fourth concrete feature row, with a null label (retained by
prepare_data, whose filter looks only at feature columns). -/
def frow4 : FeatureRow := { city_id := 1, year := 2020, month := 4, features := [some 4], label := none }

/-- Concrete city used by the witnesses below. -/
def cityLisbon : City :=
  { city_id := 1, city_name := "lisbon", country_code := "PT",
    latitude := 0, longitude := 0, timezone := "auto" }

-- ==========================================================================
-- Helper lemmas about maxByStartedAt (the ORDER BY started_at DESC LIMIT 1
-- query) and sqlMax (the MAX aggregate)
-- ==========================================================================

lemma maxByStartedAt_eq_none {l : List RunLogRow} :
    maxByStartedAt l = none ↔ l = [] := by
  cases l with
  | nil => simp [maxByStartedAt]
  | cons r rs =>
    simp only [maxByStartedAt]
    cases maxByStartedAt rs with
    | none => simp
    | some b =>
      constructor
      · intro h
        by_cases hgt : b.payload.started_at > r.payload.started_at <;>
          simp [hgt] at h
      · intro h
        cases h

lemma maxByStartedAt_mem {l : List RunLogRow} {b : RunLogRow}
    (h : maxByStartedAt l = some b) : b ∈ l := by
  induction l with
  | nil => cases h
  | cons r rs ih =>
    unfold maxByStartedAt at h
    cases hm : maxByStartedAt rs with
    | none =>
      rw [hm] at h
      simp only [Option.some.injEq] at h
      subst h
      exact List.mem_cons_self r rs
    | some c =>
      rw [hm] at h
      dsimp only at h
      by_cases hgt : c.payload.started_at > r.payload.started_at
      · rw [if_pos hgt] at h
        simp only [Option.some.injEq] at h
        subst h
        exact List.mem_cons_of_mem r (ih hm)
      · rw [if_neg hgt] at h
        simp only [Option.some.injEq] at h
        subst h
        exact List.mem_cons_self r rs

lemma maxByStartedAt_spec {l : List RunLogRow} {r0 : RunLogRow}
    (hmem : r0 ∈ l)
    (hmax : ∀ r ∈ l, r = r0 ∨ r.payload.started_at < r0.payload.started_at) :
    maxByStartedAt l = some r0 := by
  induction l with
  | nil => cases hmem
  | cons r rs ih =>
    unfold maxByStartedAt
    cases hm : maxByStartedAt rs with
    | none =>
      have hnil : rs = [] := maxByStartedAt_eq_none.mp hm
      subst hnil
      rcases List.mem_cons.mp hmem with h1 | h1
      · rw [h1]
      · cases h1
    | some b =>
      have hb : b ∈ rs := maxByStartedAt_mem hm
      rcases hmax b (List.mem_cons_of_mem r hb) with hb0 | hblt
      · subst hb0
        rcases hmax r (List.mem_cons_self r rs) with hr0 | hrlt
        · subst hr0
          dsimp only
          simp
        · dsimp only
          rw [if_pos hrlt]
      · rcases List.mem_cons.mp hmem with h1 | h1
        · subst h1
          dsimp only
          rw [if_neg (by exact Int.not_lt.mpr (Int.le_of_lt hblt))]
        · have hrec := ih h1 (fun r hr => hmax r (List.mem_cons_of_mem _ hr))
          rw [hrec] at hm
          injection hm with he
          rw [he] at hblt
          exact absurd hblt (lt_irrefl _)

lemma sqlMax_eq_none {ids : List Int} : sqlMax ids = none ↔ ids = [] := by
  cases ids with
  | nil => simp [sqlMax]
  | cons i is =>
    simp only [sqlMax]
    cases sqlMax is <;> simp

lemma sqlMax_ge {ids : List Int} {i : Int} (h : i ∈ ids) :
    ∃ m, sqlMax ids = some m ∧ i ≤ m := by
  induction ids with
  | nil => cases h
  | cons j js ih =>
    cases hm : sqlMax js with
    | none =>
      have hnil : js = [] := sqlMax_eq_none.mp hm
      subst hnil
      rcases List.mem_cons.mp h with h1 | h1
      · exact ⟨j, by simp [sqlMax, h1], by rw [h1]⟩
      · cases h1
    | some m =>
      refine ⟨max m j, by simp [sqlMax, hm], ?_⟩
      rcases List.mem_cons.mp h with h1 | h1
      · rw [h1]; exact le_max_right m j
      · rcases ih h1 with ⟨m2, hm2, hle⟩
        rw [hm] at hm2
        injection hm2 with he
        subst he
        exact le_trans hle (le_max_left m j)

-- ==========================================================================
-- C1 : freshness classification
-- ==========================================================================

/-- C1: the freshness status computed by compute_run_stats agrees with the
mirrored classifier of the health check, the classification depends only
on the lag in whole days between the current UTC date and the max bronze
date, and it maps lag 0 or 1 to fresh, lag 2 through 7 to stale, lag 8 or
more to very_stale, and a missing max date to unknown. -/
theorem freshness_is_pure_function_of_lag :
    (∀ (w : Warehouse) (today : Int),
      (compute_run_stats w today).freshness_status =
        classifyFreshness today w.bronze_max_date)
    ∧ (∀ today : Int, classifyFreshness today none = "unknown")
    ∧ (∀ today d : Int,
        ((today - d = 0 ∨ today - d = 1) →
          classifyFreshness today (some d) = "fresh")
        ∧ (2 ≤ today - d → today - d ≤ 7 →
          classifyFreshness today (some d) = "stale")
        ∧ (8 ≤ today - d →
          classifyFreshness today (some d) = "very_stale"))
    ∧ (∀ today d today2 d2 : Int, today - d = today2 - d2 →
        classifyFreshness today (some d) = classifyFreshness today2 (some d2)) := by
  refine ⟨?_, ?_, ?_, ?_⟩
  · intro w today
    cases h : w.bronze_max_date <;>
      simp [compute_run_stats, classifyFreshness, h]
  · intro today
    rfl
  · intro today d
    refine ⟨?_, ?_, ?_⟩
    · intro h
      have hle : today - d ≤ 1 := by omega
      simp [classifyFreshness, hle]
    · intro h2 h7
      have hn1 : ¬ today - d ≤ 1 := by omega
      simp [classifyFreshness, hn1, h7]
    · intro h8
      have hn1 : ¬ today - d ≤ 1 := by omega
      have hn7 : ¬ today - d ≤ 7 := by omega
      simp [classifyFreshness, hn1, hn7]
  · intro today d today2 d2 heq
    simp only [classifyFreshness]
    rw [heq]

/-- Witness for C1 at concrete lags 0, 1, 2, 7, 8, 100 and a missing
date, checked against both implementations. -/
theorem freshness_is_pure_function_of_lag_witness :
    (compute_run_stats
        { bronze_count := 5, gold_ml_count := 3, bronze_max_date := some 100,
          gold_latest_month := none, pipeline_run_log := [] } 102).freshness_status =
      classifyFreshness 102 (some 100)
    ∧ classifyFreshness 102 (some 102) = "fresh"
    ∧ classifyFreshness 102 (some 101) = "fresh"
    ∧ classifyFreshness 102 (some 100) = "stale"
    ∧ classifyFreshness 102 (some 95) = "stale"
    ∧ classifyFreshness 102 (some 94) = "very_stale"
    ∧ classifyFreshness 102 (some 2) = "very_stale"
    ∧ classifyFreshness 102 none = "unknown"
    ∧ classifyFreshness 102 (some 100) = classifyFreshness 7 (some 5) := by
  refine ⟨freshness_is_pure_function_of_lag.1 _ 102,
    (freshness_is_pure_function_of_lag.2.2.1 102 102).1 (by norm_num),
    (freshness_is_pure_function_of_lag.2.2.1 102 101).1 (by norm_num),
    (freshness_is_pure_function_of_lag.2.2.1 102 100).2.1 (by norm_num) (by norm_num),
    (freshness_is_pure_function_of_lag.2.2.1 102 95).2.1 (by norm_num) (by norm_num),
    (freshness_is_pure_function_of_lag.2.2.1 102 94).2.2 (by norm_num),
    (freshness_is_pure_function_of_lag.2.2.1 102 2).2.2 (by norm_num),
    freshness_is_pure_function_of_lag.2.1 102,
    freshness_is_pure_function_of_lag.2.2.2 102 100 7 5 (by norm_num)⟩

-- ==========================================================================
-- C2 : delta computation against the last successful run
-- ==========================================================================

/-- C2: compute_run_stats derives the deltas from the most recent record
with status success (ordered by started_at descending, other statuses
skipped); with no prior successful record each delta equals the current
count. -/
theorem compute_run_stats_deltas :
    ∀ (w : Warehouse) (today : Int),
      ((∀ r ∈ w.pipeline_run_log, r.payload.status ≠ "success") →
        (compute_run_stats w today).rows_bronze_delta = w.bronze_count
        ∧ (compute_run_stats w today).rows_gold_ml_delta = w.gold_ml_count)
      ∧ (∀ r0 ∈ w.pipeline_run_log, r0.payload.status = "success" →
          (∀ r ∈ w.pipeline_run_log, r.payload.status = "success" →
            r = r0 ∨ r.payload.started_at < r0.payload.started_at) →
          (compute_run_stats w today).rows_bronze_delta =
            w.bronze_count - r0.payload.rows_bronze
          ∧ (compute_run_stats w today).rows_gold_ml_delta =
            w.gold_ml_count - r0.payload.rows_gold_ml) := by
  intro w today
  constructor
  · intro hnone
    have hfilter :
        w.pipeline_run_log.filter (fun r => r.payload.status == "success") = [] := by
      rw [List.filter_eq_nil_iff]
      intro r hr
      simpa using hnone r hr
    simp [compute_run_stats, lastSuccess, hfilter, maxByStartedAt]
  · intro r0 hr0mem hr0succ hmax
    have hls : lastSuccess w.pipeline_run_log = some r0 := by
      unfold lastSuccess
      apply maxByStartedAt_spec
      · exact List.mem_filter.mpr ⟨hr0mem, by simp [hr0succ]⟩
      · intro r hr
        have hrf := List.mem_filter.mp hr
        exact hmax r hrf.1 (by simpa using hrf.2)
    simp [compute_run_stats, hls]

/-- Witness for C2: the end-to-end scenario of the spec, with a prior
successful run at bronze count 10, a later failed run at bronze count 999,
and a current bronze count of 15: the delta is 5, computed against the
successful run, not the failed one; and on an empty log the deltas equal
the current counts. -/
theorem compute_run_stats_deltas_witness :
    (compute_run_stats
      { bronze_count := 15, gold_ml_count := 8, bronze_max_date := some 100,
        gold_latest_month := some (2025, 12),
        pipeline_run_log :=
          [{ id := 1,
             payload :=
              { flow_name := "daily-climate-pipeline", run_mode := "daily",
                status := "success", started_at := 1, finished_at := 2,
                rows_bronze := 10, rows_gold_ml := 6, rows_bronze_delta := 10,
                rows_gold_ml_delta := 6, bronze_max_date := some 90,
                gold_ml_max_date := some 80, freshness_status := "fresh" } },
           { id := 2,
             payload :=
              { flow_name := "daily-climate-pipeline", run_mode := "daily",
                status := "failed", started_at := 5, finished_at := 6,
                rows_bronze := 999, rows_gold_ml := 999, rows_bronze_delta := 0,
                rows_gold_ml_delta := 0, bronze_max_date := some 95,
                gold_ml_max_date := some 85, freshness_status := "fresh" } }] }
      102).rows_bronze_delta = 5
    ∧ (compute_run_stats
        { bronze_count := 15, gold_ml_count := 8, bronze_max_date := none,
          gold_latest_month := none, pipeline_run_log := [] } 102).rows_bronze_delta = 15 := by
  constructor
  · have h := (compute_run_stats_deltas
      { bronze_count := 15, gold_ml_count := 8, bronze_max_date := some 100,
        gold_latest_month := some (2025, 12),
        pipeline_run_log :=
          [{ id := 1,
             payload :=
              { flow_name := "daily-climate-pipeline", run_mode := "daily",
                status := "success", started_at := 1, finished_at := 2,
                rows_bronze := 10, rows_gold_ml := 6, rows_bronze_delta := 10,
                rows_gold_ml_delta := 6, bronze_max_date := some 90,
                gold_ml_max_date := some 80, freshness_status := "fresh" } },
           { id := 2,
             payload :=
              { flow_name := "daily-climate-pipeline", run_mode := "daily",
                status := "failed", started_at := 5, finished_at := 6,
                rows_bronze := 999, rows_gold_ml := 999, rows_bronze_delta := 0,
                rows_gold_ml_delta := 0, bronze_max_date := some 95,
                gold_ml_max_date := some 85, freshness_status := "fresh" } }] }
      102).2
      ({ id := 1,
         payload :=
          { flow_name := "daily-climate-pipeline", run_mode := "daily",
            status := "success", started_at := 1, finished_at := 2,
            rows_bronze := 10, rows_gold_ml := 6, rows_bronze_delta := 10,
            rows_gold_ml_delta := 6, bronze_max_date := some 90,
            gold_ml_max_date := some 80, freshness_status := "fresh" } })
      (by simp) (by decide) (by decide)
    simpa using h.1
  · have h := (compute_run_stats_deltas
      { bronze_count := 15, gold_ml_count := 8, bronze_max_date := none,
        gold_latest_month := none, pipeline_run_log := [] } 102).1
      (by intro r hr; cases hr)
    simpa using h.1

-- ==========================================================================
-- C8 : append-only log inserts with max-plus-one ids
-- ==========================================================================

/-- C8: both log_pipeline_run and log_ml_metrics assign the new record the
id max(existing id) + 1, or 1 on an empty table, and append exactly one
row leaving every existing row in place, so each freshly assigned id is
strictly greater than every id already in the table. -/
theorem log_inserts_append_only_max_plus_one :
    ∀ (runLog : List RunLogRow) (r : PipelineRunRecord)
      (mlLog : List MlMetricsRow) (mrec : MLMetricRecord),
      log_pipeline_run runLog r =
        runLog ++ [{ id := computeNextIdRun runLog, payload := r }]
      ∧ (log_pipeline_run runLog r).take runLog.length = runLog
      ∧ (log_pipeline_run runLog r).length = runLog.length + 1
      ∧ (runLog = [] → computeNextIdRun runLog = 1)
      ∧ (∀ m, sqlMax (runLog.map RunLogRow.id) = some m →
          computeNextIdRun runLog = m + 1)
      ∧ (∀ row ∈ runLog, row.id < computeNextIdRun runLog)
      ∧ log_ml_metrics mlLog mrec =
          mlLog ++ [{ id := computeNextIdMl mlLog, payload := mrec }]
      ∧ (log_ml_metrics mlLog mrec).take mlLog.length = mlLog
      ∧ (log_ml_metrics mlLog mrec).length = mlLog.length + 1
      ∧ (mlLog = [] → computeNextIdMl mlLog = 1)
      ∧ (∀ m, sqlMax (mlLog.map MlMetricsRow.id) = some m →
          computeNextIdMl mlLog = m + 1)
      ∧ (∀ row ∈ mlLog, row.id < computeNextIdMl mlLog) := by
  intro runLog r mlLog mrec
  refine ⟨rfl, ?_, ?_, ?_, ?_, ?_, rfl, ?_, ?_, ?_, ?_, ?_⟩
  · simp [log_pipeline_run]
  · simp [log_pipeline_run]
  · intro h; subst h; rfl
  · intro m hm; simp [computeNextIdRun, hm]
  · intro row hrow
    rcases sqlMax_ge (List.mem_map_of_mem RunLogRow.id hrow) with ⟨m, hm, hle⟩
    simp only [computeNextIdRun, hm]
    omega
  · simp [log_ml_metrics]
  · simp [log_ml_metrics]
  · intro h; subst h; rfl
  · intro m hm; simp [computeNextIdMl, hm]
  · intro row hrow
    rcases sqlMax_ge (List.mem_map_of_mem MlMetricsRow.id hrow) with ⟨m, hm, hle⟩
    simp only [computeNextIdMl, hm]
    omega

/-- Witness for C8 on concrete tables: an empty run log receives id 1, a
log with ids 1 and 2 receives id 3, every existing row keeps an id
strictly below the new one, and an empty metrics log receives id 1. -/
theorem log_inserts_append_only_max_plus_one_witness :
    computeNextIdRun [] = 1
    ∧ computeNextIdRun
        [{ id := 1, payload := recSuccess }, { id := 2, payload := recFailed }] = 2 + 1
    ∧ ({ id := 1, payload := recSuccess } : RunLogRow).id <
        computeNextIdRun
          [{ id := 1, payload := recSuccess }, { id := 2, payload := recFailed }]
    ∧ computeNextIdMl [] = 1 := by
  refine ⟨(log_inserts_append_only_max_plus_one [] recSuccess [] recMl).2.2.2.1 rfl,
    (log_inserts_append_only_max_plus_one
      [{ id := 1, payload := recSuccess }, { id := 2, payload := recFailed }]
      recSuccess [] recMl).2.2.2.2.1 2 (by decide),
    (log_inserts_append_only_max_plus_one
      [{ id := 1, payload := recSuccess }, { id := 2, payload := recFailed }]
      recSuccess [] recMl).2.2.2.2.2.1
      { id := 1, payload := recSuccess } (by simp),
    (log_inserts_append_only_max_plus_one [] recSuccess []
      recMl).2.2.2.2.2.2.2.2.2.1 rfl⟩

-- ==========================================================================
-- C10 : hard predictions at the 0.5 threshold
-- ==========================================================================

/-- C10: the hard prediction of the inference pipeline is 1 exactly when
the positive-class probability is at least one half; a probability of
exactly one half yields 1, and this holds for every scored row. -/
theorem hard_prediction_threshold_ge :
    (∀ p : ℚ, hardPrediction p = 1 ↔ 1 / 2 ≤ p)
    ∧ hardPrediction (1 / 2) = 1
    ∧ (∀ p : ℚ, p < 1 / 2 → hardPrediction p = 0)
    ∧ (∀ probs : List ℚ, ∀ pr ∈ probs.zip (hardPredictions probs),
        (pr.2 = 1 ↔ 1 / 2 ≤ pr.1)) := by
  have hzip : ∀ (probs : List ℚ), ∀ pr ∈ probs.zip (hardPredictions probs),
      pr.2 = hardPrediction pr.1 := by
    intro probs
    induction probs with
    | nil => intro pr h; cases h
    | cons p ps ih =>
      intro pr h
      rcases List.mem_cons.mp h with h1 | h1
      · subst h1; rfl
      · exact ih pr h1
  refine ⟨?_, ?_, ?_, ?_⟩
  · intro p
    unfold hardPrediction
    split <;> simp_all
  · simp [hardPrediction]
  · intro p hp
    unfold hardPrediction
    rw [if_neg (not_le.mpr hp)]
  · intro probs pr hpr
    rw [hzip probs pr hpr]
    unfold hardPrediction
    split <;> simp_all

/-- Witness for C10 at concrete probabilities one half and one quarter,
including a scored row taken from the zipped prediction list. -/
theorem hard_prediction_threshold_ge_witness :
    hardPrediction (1 / 2) = 1
    ∧ hardPrediction (1 / 4) = 0
    ∧ (((1 : ℚ) / 2, (1 : Nat)).2 = 1) := by
  refine ⟨(hard_prediction_threshold_ge.1 (1 / 2)).mpr (by norm_num),
    hard_prediction_threshold_ge.2.2.1 (1 / 4) (by norm_num),
    (hard_prediction_threshold_ge.2.2.2 [1 / 2, 1 / 4] ((1 : ℚ) / 2, 1)
      (by norm_num [hardPredictions, hardPrediction])).mpr (by norm_num)⟩

-- ==========================================================================
-- Helper lemmas for the ingestion folds
-- ==========================================================================

lemma foldl_preserves {α β : Type} {P : β → Prop} {f : β → α → β}
    (hf : ∀ b a, P b → P (f b a)) :
    ∀ (l : List α) (b : β), P b → P (l.foldl f b) := by
  intro l
  induction l with
  | nil => intro b h; exact h
  | cons a as ih => intro b h; exact ih _ (hf b a h)

lemma stepWindow_successes_le {fetchA : FetchOracle} {dv : List String}
    {mr : Nat} {bd : ℚ} {sd ed : Date} {acc : Tally × Artifacts} {city : City}
    {y : Nat} (h : acc.1.successes ≤ acc.1.total_requests) :
    (stepWindow fetchA dv mr bd sd ed acc city y).1.successes ≤
      (stepWindow fetchA dv mr bd sd ed acc city y).1.total_requests := by
  unfold stepWindow
  dsimp only
  split_ifs with h1 h2
  · exact h
  · exact h
  · rcases hres : (fetch_daily_with_retries
        (fetchA city (clamp_year_window sd ed y).1 (clamp_year_window sd ed y).2)
        dv mr bd).result with _ | d <;> simp [hres] <;> omega

lemma stepRecentCity_successes_le {fetchA : FetchOracle} {dv : List String}
    {mr : Nat} {bd : ℚ} {ys ed : Date} {cy : Nat} {acc : Tally × Artifacts}
    {city : City} (h : acc.1.successes ≤ acc.1.total_requests) :
    (stepRecentCity fetchA dv mr bd ys ed cy acc city).1.successes ≤
      (stepRecentCity fetchA dv mr bd ys ed cy acc city).1.total_requests := by
  unfold stepRecentCity
  dsimp only
  rcases hres : (fetch_daily_with_retries (fetchA city ys ed) dv mr bd).result
    with _ | d <;> simp [hres] <;> omega

-- ==========================================================================
-- C3 : non-zero exit code exactly when no request succeeded
-- ==========================================================================

/-- C3: the ingestion process exits non-zero exactly when zero requests
succeeded; since every summary produced by run_backfill or run_recent has
successes bounded by total_requests (also proved here), the extra
total_requests = 0 disjunct of the code adds nothing. -/
theorem ingestion_exit_nonzero_iff_no_success :
    (∀ s : IngestionSummary, s.successes ≤ s.total_requests →
      (exitCode s ≠ 0 ↔ s.successes = 0))
    ∧ (∀ (cities : List City) (sd ed : Date) (fetchA : FetchOracle)
        (dv : List String) (mr : Nat) (bd : ℚ) (fs0 : Artifacts),
        (run_backfill cities sd ed fetchA dv mr bd fs0).1.successes ≤
          (run_backfill cities sd ed fetchA dv mr bd fs0).1.total_requests)
    ∧ (∀ (cities : List City) (today : Date) (fetchA : FetchOracle)
        (dv : List String) (mr : Nat) (bd : ℚ) (fs0 : Artifacts),
        (run_recent cities today fetchA dv mr bd fs0).1.successes ≤
          (run_recent cities today fetchA dv mr bd fs0).1.total_requests) := by
  refine ⟨?_, ?_, ?_⟩
  · intro s hle
    unfold exitCode
    split_ifs with hc
    · have hs0 : s.successes = 0 := by
        rcases hc with h | h
        · omega
        · exact h
      simp [hs0]
    · have hns : s.successes ≠ 0 := fun h => hc (Or.inr h)
      simp [hns]
  · intro cities sd ed fetchA dv mr bd fs0
    unfold run_backfill
    dsimp only
    refine foldl_preserves
      (P := fun acc : Tally × Artifacts =>
        acc.1.successes ≤ acc.1.total_requests)
      ?_ cities (Tally.init, fs0) (by simp [Tally.init])
    intro acc city h
    refine foldl_preserves
      (P := fun acc : Tally × Artifacts =>
        acc.1.successes ≤ acc.1.total_requests)
      ?_ (year_range sd ed) acc h
    intro b y hb
    exact stepWindow_successes_le hb
  · intro cities today fetchA dv mr bd fs0
    unfold run_recent
    dsimp only
    split_ifs with h
    · simp
    · exact foldl_preserves
        (P := fun acc : Tally × Artifacts =>
          acc.1.successes ≤ acc.1.total_requests)
        (fun acc city h2 => stepRecentCity_successes_le h2)
        cities (Tally.init, fs0) (by simp [Tally.init])

/-- Witness for C3 at the concrete summaries of the spec: five requests
with zero successes exit non-zero, one success out of five exits zero; the
bound hypothesis is checked on both. -/
theorem ingestion_exit_nonzero_iff_no_success_witness :
    exitCode { mode := "backfill", total_cities := 5, total_requests := 5,
               successes := 0, failures := 5, failed_cities := [] } ≠ 0
    ∧ exitCode { mode := "backfill", total_cities := 5, total_requests := 5,
                 successes := 1, failures := 4, failed_cities := [] } = 0 := by
  constructor
  · exact (ingestion_exit_nonzero_iff_no_success.1
      { mode := "backfill", total_cities := 5, total_requests := 5,
        successes := 0, failures := 5, failed_cities := [] }
      (by decide)).2 rfl
  · have h := ingestion_exit_nonzero_iff_no_success.1
      { mode := "backfill", total_cities := 5, total_requests := 5,
        successes := 1, failures := 4, failed_cities := [] }
      (by decide)
    by_contra h0
    exact absurd (h.mp h0) (by decide)

-- ==========================================================================
-- C4 : recent mode on January 1 (corrected)
-- ==========================================================================

/-- C4 counterexample: on a day whose yesterday precedes January 1 of the
current year, run_recent indeed performs no requests and returns the empty
summary, but the invocation then signals failure to its caller: the exit
rule of main maps the empty summary to exit code 1, not 0. -/
theorem run_recent_jan1_counterexample :
    (run_recent [{ city_id := 1, city_name := "lisbon", country_code := "PT",
                   latitude := 0, longitude := 0, timezone := "auto" }]
        { year := 2026, month := 1, day := 1 }
        (fun _ _ _ _ => .error "network") ["temperature_2m_max"] 3 (1 / 2)
        []).1 =
      { mode := "recent", total_cities := 1, total_requests := 0,
        successes := 0, failures := 0, failed_cities := [] }
    ∧ exitCode (run_recent
        [{ city_id := 1, city_name := "lisbon", country_code := "PT",
           latitude := 0, longitude := 0, timezone := "auto" }]
        { year := 2026, month := 1, day := 1 }
        (fun _ _ _ _ => .error "network") ["temperature_2m_max"] 3 (1 / 2)
        []).1 = 1 := by
  constructor
  · rfl
  · rfl

/-- C4 as amended: when yesterday precedes January 1 of the current year,
run_recent performs no requests, returns the empty IngestionSummary
without raising and leaves the artifacts untouched, but the invocation
does signal failure: main exits with code 1 because the empty summary has
no successful request. -/
theorem run_recent_jan1_amended :
    ∀ (cities : List City) (today : Date) (fetchA : FetchOracle)
      (dv : List String) (mr : Nat) (bd : ℚ) (fs0 : Artifacts),
      Date.ltB (predDate today) { year := today.year, month := 1, day := 1 } = true →
      run_recent cities today fetchA dv mr bd fs0 =
        ({ mode := "recent", total_cities := cities.length, total_requests := 0,
           successes := 0, failures := 0, failed_cities := [] }, fs0)
      ∧ exitCode (run_recent cities today fetchA dv mr bd fs0).1 = 1 := by
  intro cities today fetchA dv mr bd fs0 h
  have hrun : run_recent cities today fetchA dv mr bd fs0 =
      ({ mode := "recent", total_cities := cities.length, total_requests := 0,
         successes := 0, failures := 0, failed_cities := [] }, fs0) := by
    unfold run_recent
    dsimp only
    rw [h]
    simp
  refine ⟨hrun, ?_⟩
  rw [hrun]
  rfl

/-- Witness for the amended C4 on January 1 2026 with one city. -/
theorem run_recent_jan1_amended_witness :
    run_recent [{ city_id := 1, city_name := "porto", country_code := "PT",
                  latitude := 0, longitude := 0, timezone := "auto" }]
        { year := 2026, month := 1, day := 1 }
        (fun _ _ _ _ => .error "network") ["temperature_2m_max"] 3 (1 / 2) [] =
      ({ mode := "recent", total_cities := 1, total_requests := 0,
         successes := 0, failures := 0, failed_cities := [] }, [])
    ∧ exitCode (run_recent
        [{ city_id := 1, city_name := "porto", country_code := "PT",
           latitude := 0, longitude := 0, timezone := "auto" }]
        { year := 2026, month := 1, day := 1 }
        (fun _ _ _ _ => .error "network") ["temperature_2m_max"] 3 (1 / 2)
        []).1 = 1 :=
  run_recent_jan1_amended
    [{ city_id := 1, city_name := "porto", country_code := "PT",
       latitude := 0, longitude := 0, timezone := "auto" }]
    { year := 2026, month := 1, day := 1 }
    (fun _ _ _ _ => .error "network") ["temperature_2m_max"] 3 (1 / 2) []
    (by rfl)

-- ==========================================================================
-- C9 : metric finiteness and omission (corrected)
-- ==========================================================================

/-- C9 counterexample: on a single-class test split the roc_auc entry is
omitted from the JSON metrics dictionary, but the MLMetricRecord that
main persists via log_ml_metrics represents it as the float nan
placeholder, which is not a finite value. -/
theorem ml_metric_record_nan_counterexample :
    metricsNoAuc.roc_auc = none
    ∧ (makeMLMetricRecord metricsNoAuc none "daily-climate-pipeline" "daily"
        "baseline_random_forest" "v1" 75 25 0).roc_auc = FVal.nan
    ∧ ((makeMLMetricRecord metricsNoAuc none "daily-climate-pipeline" "daily"
        "baseline_random_forest" "v1" 75 25 0).roc_auc).isFinite = false := by
  refine ⟨rfl, rfl, rfl⟩

/-- C9 as amended: a metric that cannot be computed is omitted from the
JSON metrics dictionary (no zero or null placeholder), and the roc_auc
entry exists only when probabilities are available and the test split has
two classes; the persisted MLMetricRecord, however, fills every omitted
metric with the non-finite float nan placeholder, while metrics that were
computed are stored as their finite values. -/
theorem ml_metrics_json_omits_record_fills_nan :
    ∀ (m : MetricsDict) (pid : Option Int) (fn rm mn mv : String)
      (tr te : Nat) (ca : Int),
      (m.roc_auc = none →
        (makeMLMetricRecord m pid fn rm mn mv tr te ca).roc_auc = FVal.nan
        ∧ ((makeMLMetricRecord m pid fn rm mn mv tr te ca).roc_auc).isFinite
            = false)
      ∧ (∀ q, m.roc_auc = some q →
          (makeMLMetricRecord m pid fn rm mn mv tr te ca).roc_auc =
            FVal.finite q
          ∧ ((makeMLMetricRecord m pid fn rm mn mv tr te ca).roc_auc).isFinite
              = true)
      ∧ (makeMLMetricRecord m pid fn rm mn mv tr te ca).accuracy =
          FVal.finite m.accuracy
      ∧ (∀ (hasProb : Bool) (auc : Option ℚ), rocAucEntry hasProb 1 auc = none)
      ∧ (∀ (n : Nat) (auc : Option ℚ), rocAucEntry false n auc = none)
      ∧ (∀ q, rocAucEntry true 2 (some q) = some q) := by
  intro m pid fn rm mn mv tr te ca
  refine ⟨?_, ?_, rfl, ?_, ?_, ?_⟩
  · intro h
    constructor <;> simp [makeMLMetricRecord, floatOrNan, h, FVal.isFinite]
  · intro q h
    constructor <;> simp [makeMLMetricRecord, floatOrNan, h, FVal.isFinite]
  · intro hasProb auc
    cases hasProb <;> simp [rocAucEntry]
  · intro n auc
    simp [rocAucEntry]
  · intro q
    simp [rocAucEntry]

/-- Witness for the amended C9 at the single-class metrics dictionary and
at a dictionary where roc_auc was computed as seven tenths. -/
theorem ml_metrics_json_omits_record_fills_nan_witness :
    (makeMLMetricRecord metricsNoAuc none "daily-climate-pipeline" "daily"
        "baseline_random_forest" "v1" 75 25 0).roc_auc = FVal.nan
    ∧ (makeMLMetricRecord
        { metricsNoAuc with roc_auc := some (7 / 10) } none
        "daily-climate-pipeline" "daily" "baseline_random_forest" "v1"
        75 25 0).roc_auc = FVal.finite (7 / 10) := by
  refine ⟨((ml_metrics_json_omits_record_fills_nan metricsNoAuc none
      "daily-climate-pipeline" "daily" "baseline_random_forest" "v1"
      75 25 0).1 rfl).1,
    ((ml_metrics_json_omits_record_fills_nan
      { metricsNoAuc with roc_auc := some (7 / 10) } none
      "daily-climate-pipeline" "daily" "baseline_random_forest" "v1"
      75 25 0).2.1 (7 / 10) rfl).1⟩

-- ==========================================================================
-- Helper lemmas for validation and the retry loop
-- ==========================================================================

lemma checkVars_ok_of_all {daily : DailyBlock} {n : Nat} :
    ∀ {vars : List String},
      (∀ v ∈ vars, ∃ s, lookupSeries daily.series v = some s ∧ s.length = n) →
      checkVars daily n vars = .ok () := by
  intro vars
  induction vars with
  | nil => intro _; rfl
  | cons v vs ih =>
    intro h
    rcases h v (List.mem_cons_self v vs) with ⟨s, hs, hlen⟩
    unfold checkVars
    rw [hs]
    dsimp only
    rw [if_neg (by omega)]
    exact ih (fun u hu => h u (List.mem_cons_of_mem v hu))

lemma checkVars_all_of_ok {daily : DailyBlock} {n : Nat} :
    ∀ {vars : List String}, checkVars daily n vars = .ok () →
      ∀ v ∈ vars, ∃ s, lookupSeries daily.series v = some s ∧ s.length = n := by
  intro vars
  induction vars with
  | nil => intro _ v hv; cases hv
  | cons v vs ih =>
    intro h u hu
    unfold checkVars at h
    cases hl : lookupSeries daily.series v with
    | none => rw [hl] at h; exact Except.noConfusion h
    | some s =>
      rw [hl] at h
      dsimp only at h
      by_cases hlen : s.length ≠ n
      · rw [if_pos hlen] at h
        exact Except.noConfusion h
      · rw [if_neg hlen] at h
        push_neg at hlen
        rcases List.mem_cons.mp hu with h1 | h1
        · subst h1; exact ⟨s, hl, hlen⟩
        · exact ih h u h1

lemma validate_fails_missing_time {data : ApiResponse} {vars : List String}
    {daily : DailyBlock} (hd : data.daily = some daily)
    (ht : daily.time = none) :
    ∀ n, validate_daily_response data vars ≠ .ok n := by
  intro n h
  unfold validate_daily_response at h
  rw [hd] at h
  dsimp only at h
  rw [ht] at h
  exact Except.noConfusion h

lemma validate_fails_empty_time {data : ApiResponse} {vars : List String}
    {daily : DailyBlock} (hd : data.daily = some daily)
    (ht : daily.time = some []) :
    ∀ n, validate_daily_response data vars ≠ .ok n := by
  intro n h
  unfold validate_daily_response at h
  rw [hd] at h
  dsimp only at h
  rw [ht] at h
  simp at h

lemma validate_fails_length_mismatch {data : ApiResponse} {vars : List String}
    {daily : DailyBlock} {times : List String} {v : String} {s : List ℚ}
    (hd : data.daily = some daily) (ht : daily.time = some times)
    (hv : v ∈ vars) (hs : lookupSeries daily.series v = some s)
    (hlen : s.length ≠ times.length) :
    ∀ n, validate_daily_response data vars ≠ .ok n := by
  intro n h
  unfold validate_daily_response at h
  rw [hd] at h
  dsimp only at h
  rw [ht] at h
  dsimp only at h
  by_cases h0 : times.length = 0
  · rw [if_pos h0] at h
    exact Except.noConfusion h
  · rw [if_neg h0] at h
    cases hc : checkVars daily times.length vars with
    | error e => rw [hc] at h; exact Except.noConfusion h
    | ok u =>
      cases u
      rcases checkVars_all_of_ok hc v hv with ⟨s2, hs2, hlen2⟩
      rw [hs] at hs2
      injection hs2 with he
      subst he
      exact hlen hlen2

lemma fetchRetry_result_none {tryAt : Nat → Except String (ApiResponse × Nat)}
    {mr : Nat} {bd : ℚ} (hfail : ∀ a, ∃ e, tryAt a = .error e) :
    ∀ (fuel attempt : Nat),
      (fetchRetryGo tryAt mr bd attempt fuel).result = none := by
  intro fuel
  induction fuel with
  | zero => intro attempt; rfl
  | succ f ih =>
    intro attempt
    unfold fetchRetryGo
    by_cases h1 : attempt > mr
    · rw [if_pos h1]
    · rw [if_neg h1]
      obtain ⟨e, he⟩ := hfail attempt
      rw [he]
      dsimp only
      by_cases h2 : attempt = mr
      · rw [if_pos h2]
      · rw [if_neg h2]
        exact ih (attempt + 1)

lemma fetchRetry_first_ok {tryAt : Nat → Except String (ApiResponse × Nat)}
    {mr : Nat} {bd : ℚ} (hmr : 1 ≤ mr) {d : ApiResponse} {n : Nat}
    (h1 : tryAt 1 = .ok (d, n)) :
    (fetchRetryGo tryAt mr bd 1 (mr + 1)).result = some d := by
  unfold fetchRetryGo
  rw [if_neg (by omega)]
  rw [h1]

-- ==========================================================================
-- C5 : retry exhaustion and validation failure semantics
-- ==========================================================================

/-- C5: when every attempt fails (fetch exception or validation failure),
fetch_daily_with_retries with max_retries 3 performs exactly 3 attempts,
sleeps base_delay times 2 to the power attempt minus 1 between consecutive
attempts, and returns none with 0 records instead of raising; a payload
with a missing or empty time list, or any requested variable series of a
length different from the time length, fails validation on every attempt;
and a batch over such an always-failing source records every request as a
failure, writes no artifact and still returns a summary. -/
theorem retry_exhaustion_semantics :
    (∀ (fetchA : Nat → Except String ApiResponse) (dv : List String) (b : ℚ),
      (∀ a, ∃ e, attemptFetch fetchA dv a = .error e) →
      fetch_daily_with_retries fetchA dv 3 b =
        { result := none, records := 0, attemptsMade := 3,
          sleeps := [b * 2 ^ 0, b * 2 ^ 1] })
    ∧ (∀ (data : ApiResponse) (dv : List String) (daily : DailyBlock),
        data.daily = some daily →
        ((daily.time = none ∨ daily.time = some []) →
          ∀ n, validate_daily_response data dv ≠ .ok n)
        ∧ (∀ v ∈ dv, ∀ (times : List String) (s : List ℚ),
            daily.time = some times →
            lookupSeries daily.series v = some s →
            s.length ≠ times.length →
            ∀ n, validate_daily_response data dv ≠ .ok n))
    ∧ (∀ (fetchA : Nat → Except String ApiResponse) (dv : List String)
        (data : ApiResponse) (a : Nat),
        fetchA a = .ok data →
        (∀ n, validate_daily_response data dv ≠ .ok n) →
        ∃ e, attemptFetch fetchA dv a = .error e)
    ∧ (∀ (cities : List City) (sd ed : Date) (fetchA : FetchOracle)
        (dv : List String) (mr : Nat) (bd : ℚ) (fs0 : Artifacts),
        (∀ (city : City) (ys ye : Date) (a : Nat),
          ∃ e, attemptFetch (fetchA city ys ye) dv a = .error e) →
        (run_backfill cities sd ed fetchA dv mr bd fs0).1.successes = 0
        ∧ (run_backfill cities sd ed fetchA dv mr bd fs0).1.failures =
            (run_backfill cities sd ed fetchA dv mr bd fs0).1.total_requests
        ∧ (run_backfill cities sd ed fetchA dv mr bd fs0).2 = fs0) := by
  refine ⟨?_, ?_, ?_, ?_⟩
  · intro fetchA dv b hfail
    obtain ⟨e1, h1⟩ := hfail 1
    obtain ⟨e2, h2⟩ := hfail 2
    obtain ⟨e3, h3⟩ := hfail 3
    unfold fetch_daily_with_retries
    norm_num [fetchRetryGo, h1, h2, h3]
  · intro data dv daily hd
    constructor
    · rintro (ht | ht)
      · exact validate_fails_missing_time hd ht
      · exact validate_fails_empty_time hd ht
    · intro v hv times s ht hs hlen
      exact validate_fails_length_mismatch hd ht hv hs hlen
  · intro fetchA dv data a hA hval
    unfold attemptFetch
    rw [hA]
    dsimp only
    cases hvr : validate_daily_response data dv with
    | error e => exact ⟨e, rfl⟩
    | ok n => exact absurd hvr (hval n)
  · intro cities sd ed fetchA dv mr bd fs0 hfail
    have hstep : ∀ (acc : Tally × Artifacts) (city : City) (y : Nat),
        (acc.1.successes = 0 ∧ acc.1.failures = acc.1.total_requests ∧
          acc.2 = fs0) →
        ((stepWindow fetchA dv mr bd sd ed acc city y).1.successes = 0 ∧
          (stepWindow fetchA dv mr bd sd ed acc city y).1.failures =
            (stepWindow fetchA dv mr bd sd ed acc city y).1.total_requests ∧
          (stepWindow fetchA dv mr bd sd ed acc city y).2 = fs0) := by
      intro acc city y h
      unfold stepWindow
      dsimp only
      split_ifs with hA hB
      · exact h
      · exact h
      · have hres : (fetch_daily_with_retries
            (fetchA city (clamp_year_window sd ed y).1
              (clamp_year_window sd ed y).2) dv mr bd).result = none :=
          fetchRetry_result_none (hfail city _ _) _ _
        rw [hres]
        dsimp only
        exact ⟨h.1, by omega, h.2.2⟩
    have hfold := foldl_preserves
      (P := fun acc : Tally × Artifacts =>
        acc.1.successes = 0 ∧ acc.1.failures = acc.1.total_requests ∧
          acc.2 = fs0)
      (fun acc city h =>
        foldl_preserves
          (P := fun acc : Tally × Artifacts =>
            acc.1.successes = 0 ∧ acc.1.failures = acc.1.total_requests ∧
              acc.2 = fs0)
          (fun b y hb => hstep b city y hb) (year_range sd ed) acc h)
      cities (Tally.init, fs0) (by simp [Tally.init])
    exact ⟨hfold.1, hfold.2.1, hfold.2.2⟩

/-- Witness for C5: a constant source returning the malformed payload
(time of length 2, variable series of length 1) exhausts exactly 3
attempts with sleeps of half a second and one second, returning none; the
malformed payload fails validation at every record count; and a one-city
backfill against it reports one failure out of one request with no
artifact written. -/
theorem retry_exhaustion_semantics_witness :
    fetch_daily_with_retries (fun _ => .ok badPayload) ["temperature_2m_max"]
        3 (1 / 2) =
      { result := none, records := 0, attemptsMade := 3,
        sleeps := [1 / 2 * 2 ^ 0, 1 / 2 * 2 ^ 1] }
    ∧ validate_daily_response badPayload ["temperature_2m_max"] ≠ .ok 2
    ∧ (run_backfill
        [{ city_id := 1, city_name := "lisbon", country_code := "PT",
           latitude := 0, longitude := 0, timezone := "auto" }]
        { year := 2024, month := 1, day := 1 }
        { year := 2024, month := 12, day := 31 }
        (fun _ _ _ => fun _ => .ok badPayload) ["temperature_2m_max"]
        3 (1 / 2) []).1.successes = 0 := by
  have hval : ∀ n, validate_daily_response badPayload ["temperature_2m_max"] ≠
      .ok n :=
    fun n =>
      (retry_exhaustion_semantics.2.1 badPayload ["temperature_2m_max"]
        { time := some ["2026-01-01", "2026-01-02"],
          series := [("temperature_2m_max", [1])] } rfl).2
        "temperature_2m_max" (List.mem_cons_self _ _)
        ["2026-01-01", "2026-01-02"] [1] rfl rfl (by decide) n
  have hfailA : ∀ a, ∃ e,
      attemptFetch (fun _ => .ok badPayload) ["temperature_2m_max"] a =
        .error e :=
    fun a => retry_exhaustion_semantics.2.2.1 (fun _ => .ok badPayload)
      ["temperature_2m_max"] badPayload a rfl hval
  refine ⟨retry_exhaustion_semantics.1 (fun _ => .ok badPayload)
      ["temperature_2m_max"] (1 / 2) hfailA,
    hval 2, ?_⟩
  exact (retry_exhaustion_semantics.2.2.2
    [{ city_id := 1, city_name := "lisbon", country_code := "PT",
       latitude := 0, longitude := 0, timezone := "auto" }]
    { year := 2024, month := 1, day := 1 }
    { year := 2024, month := 12, day := 31 }
    (fun _ _ _ => fun _ => .ok badPayload) ["temperature_2m_max"]
    3 (1 / 2) [] (fun _ _ _ => hfailA)).1

-- ==========================================================================
-- Helper lemmas for the temporal split
-- ==========================================================================

lemma rowLeB_iff {a b : FeatureRow} :
    rowLeB a b = true ↔
      (a.city_id < b.city_id
        ∨ (a.city_id = b.city_id
            ∧ (a.year < b.year
                ∨ (a.year = b.year ∧ a.month ≤ b.month)))) := by
  unfold rowLeB
  split_ifs with h1 h2 h3 h4 <;> simp <;> omega

lemma rowLeB_trans :
    ∀ a b c : FeatureRow, rowLeB a b = true → rowLeB b c = true →
      rowLeB a c = true := by
  intro a b c hab hbc
  rw [rowLeB_iff] at hab hbc ⊢
  omega

lemma rowLeB_total : ∀ a b : FeatureRow, (rowLeB a b || rowLeB b a) = true := by
  intro a b
  rw [Bool.or_eq_true, rowLeB_iff, rowLeB_iff]
  omega

lemma prepare_data_ok_shape {rows : List FeatureRow} {f : ℚ}
    {tr te : List FeatureRow}
    (hok : prepare_data rows f = .ok (tr, te)) :
    (0 < f ∧ f < 1)
    ∧ tr = ((rows.filter rowComplete).mergeSort rowLeB).take
        (⌊((((rows.filter rowComplete).mergeSort rowLeB).length : ℚ) * f)⌋).toNat
    ∧ te = ((rows.filter rowComplete).mergeSort rowLeB).drop
        (⌊((((rows.filter rowComplete).mergeSort rowLeB).length : ℚ) * f)⌋).toNat
    ∧ ¬((⌊((((rows.filter rowComplete).mergeSort rowLeB).length : ℚ) * f)⌋).toNat = 0
        ∨ (⌊((((rows.filter rowComplete).mergeSort rowLeB).length : ℚ) * f)⌋).toNat =
            ((rows.filter rowComplete).mergeSort rowLeB).length) := by
  unfold prepare_data at hok
  dsimp only at hok
  by_cases hf : ¬(0 < f ∧ f < 1)
  · rw [if_pos hf] at hok
    exact absurd hok (by simp)
  · rw [if_neg hf] at hok
    push_neg at hf
    by_cases hcut :
        (⌊((((rows.filter rowComplete).mergeSort rowLeB).length : ℚ) * f)⌋).toNat = 0
        ∨ (⌊((((rows.filter rowComplete).mergeSort rowLeB).length : ℚ) * f)⌋).toNat =
            ((rows.filter rowComplete).mergeSort rowLeB).length
    · rw [if_pos hcut] at hok
      exact absurd hok (by simp)
    · rw [if_neg hcut] at hok
      injection hok with hpair
      rw [Prod.mk.injEq] at hpair
      exact ⟨⟨hf.1, hf.2⟩, hpair.1.symm, hpair.2.symm, hcut⟩

lemma floor_mul_le_length {n : Nat} {f : ℚ} (hf : f < 1) :
    (⌊((n : ℚ) * f)⌋).toNat ≤ n := by
  have hq : (n : ℚ) * f ≤ (n : ℚ) :=
    mul_le_of_le_one_right (by positivity) (le_of_lt hf)
  have hfl : ⌊((n : ℚ) * f)⌋ ≤ (n : Int) := by
    calc ⌊((n : ℚ) * f)⌋ ≤ ⌊(n : ℚ)⌋ := Int.floor_le_floor hq
    _ = (n : Int) := Int.floor_natCast n
  exact Int.toNat_le.mpr hfl

-- ==========================================================================
-- C6 : temporal train/test split
-- ==========================================================================

/-- C6: prepare_data drops every row with a null feature, sorts ascending
by (city_id, year, month), splits the sorted rows at
cutoff = floor(n times train_fraction) into the prefix [0, cutoff) as
training and the suffix [cutoff, n) as test without any shuffling, and
errors when the train fraction is outside (0, 1) or when a partition
would be empty; on an input that is already sorted and fully complete the
test partition is exactly the trailing rows of the input order. -/
theorem prepare_data_temporal_split :
    ∀ (rows : List FeatureRow) (f : ℚ),
      (¬(0 < f ∧ f < 1) → ∃ e, prepare_data rows f = .error e)
      ∧ (∀ tr te, prepare_data rows f = .ok (tr, te) →
          (∀ r ∈ tr ++ te, rowComplete r = true)
          ∧ (tr ++ te).Pairwise (fun a b => rowLeB a b = true)
          ∧ (tr ++ te).Perm (rows.filter rowComplete)
          ∧ tr.length = (⌊(((rows.filter rowComplete).length : ℚ) * f)⌋).toNat
          ∧ tr ≠ [] ∧ te ≠ []
          ∧ tr = (tr ++ te).take tr.length
          ∧ te = (tr ++ te).drop tr.length)
      ∧ ((0 < f ∧ f < 1) →
          ((⌊(((rows.filter rowComplete).length : ℚ) * f)⌋).toNat = 0
            ∨ (⌊(((rows.filter rowComplete).length : ℚ) * f)⌋).toNat =
                (rows.filter rowComplete).length) →
          ∃ e, prepare_data rows f = .error e)
      ∧ ((rows.Pairwise fun a b => rowLeB a b = true) →
          ∀ tr te, prepare_data rows f = .ok (tr, te) →
          tr = (rows.filter rowComplete).take tr.length
          ∧ te = (rows.filter rowComplete).drop tr.length) := by
  intro rows f
  have hlenms : ((rows.filter rowComplete).mergeSort rowLeB).length =
      (rows.filter rowComplete).length := List.length_mergeSort _
  refine ⟨?_, ?_, ?_, ?_⟩
  · intro hf
    refine ⟨"train_fraction must be between 0 and 1", ?_⟩
    unfold prepare_data
    dsimp only
    rw [if_pos hf]
  · intro tr te hok
    obtain ⟨⟨hf1, hf2⟩, htr, hte, hcut⟩ := prepare_data_ok_shape hok
    have happ : tr ++ te = (rows.filter rowComplete).mergeSort rowLeB := by
      rw [htr, hte]
      exact List.take_append_drop _ _
    have hperm : ((rows.filter rowComplete).mergeSort rowLeB).Perm
        (rows.filter rowComplete) := List.mergeSort_perm _ _
    have hcle :
        (⌊((((rows.filter rowComplete).mergeSort rowLeB).length : ℚ) * f)⌋).toNat ≤
          ((rows.filter rowComplete).mergeSort rowLeB).length :=
      floor_mul_le_length hf2
    have htrlen : tr.length =
        (⌊((((rows.filter rowComplete).mergeSort rowLeB).length : ℚ) * f)⌋).toNat := by
      rw [htr, List.length_take]
      exact min_eq_left hcle
    refine ⟨?_, ?_, ?_, ?_, ?_, ?_, ?_, ?_⟩
    · intro r hr
      rw [happ] at hr
      exact List.of_mem_filter (hperm.mem_iff.mp hr)
    · rw [happ]
      exact List.sorted_mergeSort rowLeB_trans rowLeB_total _
    · rw [happ]
      exact hperm
    · rw [htrlen, hlenms]
    · intro hnil
      apply hcut
      left
      rw [← htrlen, hnil]
      rfl
    · intro hnil
      apply hcut
      right
      have hdroplen : te.length =
          ((rows.filter rowComplete).mergeSort rowLeB).length -
            (⌊((((rows.filter rowComplete).mergeSort rowLeB).length : ℚ) * f)⌋).toNat := by
        rw [hte, List.length_drop]
      rw [hnil] at hdroplen
      simp only [List.length_nil] at hdroplen
      omega
    · exact (List.take_left tr te).symm
    · exact (List.drop_left tr te).symm
  · intro hf hdeg
    refine ⟨"Train/test split produced an empty split; adjust train_fraction.", ?_⟩
    unfold prepare_data
    dsimp only
    rw [if_neg (not_not_intro hf)]
    rw [hlenms]
    rw [if_pos hdeg]
  · intro hsorted tr te hok
    obtain ⟨⟨hf1, hf2⟩, htr, hte, hcut⟩ := prepare_data_ok_shape hok
    have hms : (rows.filter rowComplete).mergeSort rowLeB =
        rows.filter rowComplete :=
      List.mergeSort_of_sorted (hsorted.filter rowComplete)
    rw [hms] at htr hte
    have hcle :
        (⌊(((rows.filter rowComplete).length : ℚ) * f)⌋).toNat ≤
          (rows.filter rowComplete).length := floor_mul_le_length hf2
    have htrlen : tr.length =
        (⌊(((rows.filter rowComplete).length : ℚ) * f)⌋).toNat := by
      rw [htr, List.length_take]
      exact min_eq_left hcle
    rw [htrlen]
    exact ⟨htr, hte⟩

unseal List.merge List.mergeSort in
/-- Witness for C6: four complete, already sorted rows with train fraction
three quarters split into the first three rows as training and the last
row as test; a fraction of 3 is rejected. -/
theorem prepare_data_temporal_split_witness :
    (∃ e, prepare_data [frow1] 3 = .error e)
    ∧ ([frow1, frow2, frow3] : List FeatureRow).length =
        (⌊((([frow1, frow2, frow3, frow4].filter rowComplete).length : ℚ) *
          (3 / 4))⌋).toNat
    ∧ ([frow4] : List FeatureRow) ≠ []
    ∧ [frow4] = ([frow1, frow2, frow3] ++ [frow4]).drop
        ([frow1, frow2, frow3] : List FeatureRow).length := by
  have hfl : List.filter rowComplete [frow1, frow2, frow3, frow4] =
      [frow1, frow2, frow3, frow4] := by decide
  have hms : List.mergeSort [frow1, frow2, frow3, frow4] rowLeB =
      [frow1, frow2, frow3, frow4] := by decide
  have hlen : (([frow1, frow2, frow3, frow4] : List FeatureRow).length : ℚ) = 4 := by
    simp
  have hfloor : (⌊((([frow1, frow2, frow3, frow4] :
      List FeatureRow).length : ℚ) * (3 / 4))⌋).toNat = 3 := by
    rw [hlen]
    rw [show ⌊((4 : ℚ) * (3 / 4))⌋ = 3 by norm_num]
    rfl
  have hok : prepare_data [frow1, frow2, frow3, frow4] (3 / 4) =
      .ok ([frow1, frow2, frow3], [frow4]) := by
    unfold prepare_data
    dsimp only
    rw [if_neg (by norm_num)]
    rw [hfl, hms, hfloor]
    rw [if_neg (by decide)]
    rfl
  have h2 := (prepare_data_temporal_split [frow1, frow2, frow3, frow4]
    (3 / 4)).2.1 [frow1, frow2, frow3] [frow4] hok
  exact ⟨(prepare_data_temporal_split [frow1] 3).1 (by norm_num),
    h2.2.2.2.1, h2.2.2.2.2.2.1, h2.2.2.2.2.2.2.2⟩

-- ==========================================================================
-- Helper lemmas for backfill idempotence and recent-mode behaviour
-- ==========================================================================

lemma stepWindow_fs_mono {fetchA : FetchOracle} {dv : List String} {mr : Nat}
    {bd : ℚ} {sd ed : Date} {city : City} {y : Nat} {acc : Tally × Artifacts}
    {a : String × Nat} (h : a ∈ acc.2) :
    a ∈ (stepWindow fetchA dv mr bd sd ed acc city y).2 := by
  unfold stepWindow
  dsimp only
  split_ifs with h1 h2
  · exact h
  · exact h
  · rcases hres : (fetch_daily_with_retries
        (fetchA city (clamp_year_window sd ed y).1 (clamp_year_window sd ed y).2)
        dv mr bd).result with _ | d <;> simp [hres]
    · exact h
    · exact Or.inr h

lemma stepRecentCity_fs_mono {fetchA : FetchOracle} {dv : List String}
    {mr : Nat} {bd : ℚ} {ys ed : Date} {cy : Nat} {acc : Tally × Artifacts}
    {city : City} {a : String × Nat} (h : a ∈ acc.2) :
    a ∈ (stepRecentCity fetchA dv mr bd ys ed cy acc city).2 := by
  unfold stepRecentCity
  dsimp only
  rcases hres : (fetch_daily_with_retries (fetchA city ys ed) dv mr bd).result
    with _ | d <;> simp [hres]
  · exact h
  · exact Or.inr h

lemma stepWindow_covers {fetchA : FetchOracle} {dv : List String} {mr : Nat}
    {bd : ℚ} {sd ed : Date} {city : City} {y : Nat} {acc : Tally × Artifacts}
    (hmr : 1 ≤ mr)
    (hone : ∀ ys ye, ∃ p, attemptFetch (fetchA city ys ye) dv 1 = .ok p)
    (hw : windowActive sd ed y = true) :
    (slugify_city_name city.city_name, y) ∈
      (stepWindow fetchA dv mr bd sd ed acc city y).2 := by
  have hlt : Date.ltB (clamp_year_window sd ed y).2
      (clamp_year_window sd ed y).1 = false := by
    simpa [windowActive] using hw
  unfold stepWindow
  dsimp only
  rw [if_neg (by simp [hlt])]
  by_cases hmem : (slugify_city_name city.city_name, y) ∈ acc.2
  · rw [if_pos hmem]
    exact hmem
  · rw [if_neg hmem]
    obtain ⟨⟨d, n⟩, hp⟩ := hone (clamp_year_window sd ed y).1
      (clamp_year_window sd ed y).2
    have hres : (fetch_daily_with_retries
        (fetchA city (clamp_year_window sd ed y).1 (clamp_year_window sd ed y).2)
        dv mr bd).result = some d := by
      unfold fetch_daily_with_retries
      exact fetchRetry_first_ok hmr hp
    simp only [hres]
    exact List.mem_insert_self _ _

lemma backfill_city_covers {fetchA : FetchOracle} {dv : List String}
    {mr : Nat} {bd : ℚ} {sd ed : Date} {city : City} (hmr : 1 ≤ mr)
    (hone : ∀ ys ye, ∃ p, attemptFetch (fetchA city ys ye) dv 1 = .ok p) :
    ∀ (years : List Nat) (acc : Tally × Artifacts), ∀ y ∈ years,
      windowActive sd ed y = true →
      (slugify_city_name city.city_name, y) ∈
        (years.foldl
          (fun a yy => stepWindow fetchA dv mr bd sd ed a city yy) acc).2 := by
  intro years
  induction years with
  | nil => intro acc y hy _; cases hy
  | cons y0 ys ih =>
    intro acc y hy hw
    simp only [List.foldl_cons]
    rcases List.mem_cons.mp hy with h1 | h1
    · subst h1
      exact foldl_preserves
        (P := fun b : Tally × Artifacts =>
          (slugify_city_name city.city_name, y) ∈ b.2)
        (fun b yy hb => stepWindow_fs_mono hb) ys _
        (stepWindow_covers hmr hone hw)
    · exact ih _ y h1 hw

lemma backfill_covers {fetchA : FetchOracle} {dv : List String} {mr : Nat}
    {bd : ℚ} {sd ed : Date} {years : List Nat} (hmr : 1 ≤ mr)
    (hall : ∀ (city : City) (ys ye : Date),
      ∃ p, attemptFetch (fetchA city ys ye) dv 1 = .ok p) :
    ∀ (cities : List City) (acc : Tally × Artifacts), ∀ city ∈ cities,
      ∀ y ∈ years, windowActive sd ed y = true →
      (slugify_city_name city.city_name, y) ∈
        (cities.foldl
          (fun acc2 c =>
            years.foldl
              (fun a yy => stepWindow fetchA dv mr bd sd ed a c yy) acc2)
          acc).2 := by
  intro cities
  induction cities with
  | nil => intro acc city hc; cases hc
  | cons c cs ih =>
    intro acc city hc y hy hw
    simp only [List.foldl_cons]
    rcases List.mem_cons.mp hc with h1 | h1
    · subst h1
      exact foldl_preserves
        (P := fun b : Tally × Artifacts =>
          (slugify_city_name city.city_name, y) ∈ b.2)
        (fun b c2 hb =>
          foldl_preserves
            (P := fun b2 : Tally × Artifacts =>
              (slugify_city_name city.city_name, y) ∈ b2.2)
            (fun b2 y2 hb2 => stepWindow_fs_mono hb2) _ b hb)
        cs _ (backfill_city_covers hmr (hall city) _ acc y hy hw)
    · exact ih _ city h1 y hy hw

lemma backfill_city_allskip {fetchA : FetchOracle} {dv : List String}
    {mr : Nat} {bd : ℚ} {sd ed : Date} {city : City} :
    ∀ (years : List Nat) (acc : Tally × Artifacts),
      (∀ y ∈ years, windowActive sd ed y = true →
        (slugify_city_name city.city_name, y) ∈ acc.2) →
      years.foldl (fun a yy => stepWindow fetchA dv mr bd sd ed a city yy) acc
        = acc := by
  intro years
  induction years with
  | nil => intro acc _; rfl
  | cons y0 ys ih =>
    intro acc h
    have hstep : stepWindow fetchA dv mr bd sd ed acc city y0 = acc := by
      unfold stepWindow
      dsimp only
      by_cases hski : Date.ltB (clamp_year_window sd ed y0).2
          (clamp_year_window sd ed y0).1 = true
      · rw [if_pos hski]
      · have hactive : windowActive sd ed y0 = true := by
          simp [windowActive, eq_false_of_ne_true hski]
        rw [if_neg hski,
          if_pos (h y0 (List.mem_cons_self y0 ys) hactive)]
    rw [List.foldl_cons, hstep]
    exact ih acc (fun y hy hw => h y (List.mem_cons_of_mem y0 hy) hw)

lemma backfill_allskip {fetchA : FetchOracle} {dv : List String} {mr : Nat}
    {bd : ℚ} {sd ed : Date} {years : List Nat} :
    ∀ (cities : List City) (acc : Tally × Artifacts),
      (∀ city ∈ cities, ∀ y ∈ years, windowActive sd ed y = true →
        (slugify_city_name city.city_name, y) ∈ acc.2) →
      cities.foldl
        (fun acc2 c =>
          years.foldl (fun a yy => stepWindow fetchA dv mr bd sd ed a c yy)
            acc2)
        acc = acc := by
  intro cities
  induction cities with
  | nil => intro acc _; rfl
  | cons c cs ih =>
    intro acc h
    rw [List.foldl_cons,
      backfill_city_allskip years acc (h c (List.mem_cons_self c cs))]
    exact ih acc (fun city hc y hy hw => h city (List.mem_cons_of_mem c hc) y hy hw)

lemma recent_fold_total {fetchA : FetchOracle} {dv : List String} {mr : Nat}
    {bd : ℚ} {ys ed : Date} {cy : Nat} :
    ∀ (cities : List City) (acc : Tally × Artifacts),
      (cities.foldl (stepRecentCity fetchA dv mr bd ys ed cy)
        acc).1.total_requests = acc.1.total_requests + cities.length := by
  intro cities
  induction cities with
  | nil => intro acc; rfl
  | cons c cs ih =>
    intro acc
    have hstep : (stepRecentCity fetchA dv mr bd ys ed cy acc c).1.total_requests
        = acc.1.total_requests + 1 := by
      unfold stepRecentCity
      dsimp only
      rcases hres : (fetch_daily_with_retries (fetchA c ys ed) dv mr bd).result
        with _ | d <;> simp [hres]
    rw [List.foldl_cons, ih, hstep, List.length_cons]
    omega

lemma recent_covers {fetchA : FetchOracle} {dv : List String} {mr : Nat}
    {bd : ℚ} {ys ed : Date} {cy : Nat} (hmr : 1 ≤ mr)
    (hall : ∀ (city : City) (s e : Date),
      ∃ p, attemptFetch (fetchA city s e) dv 1 = .ok p) :
    ∀ (cities : List City) (acc : Tally × Artifacts), ∀ city ∈ cities,
      (slugify_city_name city.city_name, cy) ∈
        (cities.foldl (stepRecentCity fetchA dv mr bd ys ed cy) acc).2 := by
  intro cities
  induction cities with
  | nil => intro acc city hc; cases hc
  | cons c cs ih =>
    intro acc city hc
    simp only [List.foldl_cons]
    rcases List.mem_cons.mp hc with h1 | h1
    · subst h1
      refine foldl_preserves
        (P := fun b : Tally × Artifacts =>
          (slugify_city_name city.city_name, cy) ∈ b.2)
        (fun b c2 hb => stepRecentCity_fs_mono hb) cs _ ?_
      obtain ⟨⟨d, n⟩, hp⟩ := hall city ys ed
      have hres : (fetch_daily_with_retries (fetchA city ys ed) dv mr
          bd).result = some d := by
        unfold fetch_daily_with_retries
        exact fetchRetry_first_ok hmr hp
      unfold stepRecentCity
      dsimp only
      simp only [hres]
      exact List.mem_insert_self _ _
    · exact ih _ city h1

-- ==========================================================================
-- C7 : backfill idempotence versus recent-mode overwriting
-- ==========================================================================

/-- C7: a (city, year) window whose artifact already exists is skipped by
run_backfill without a request; after a backfill run in which every fetch
succeeds, an identical second backfill run (any oracle, any retry
configuration) issues zero requests and leaves the artifacts unchanged;
run_recent, by contrast, issues one request per city regardless of the
existing artifacts, and on success (re)writes the current-year artifact. -/
theorem backfill_idempotent_recent_always_requests :
    (∀ (fetchA : FetchOracle) (dv : List String) (mr : Nat) (bd : ℚ)
       (sd ed : Date) (acc : Tally × Artifacts) (city : City) (y : Nat),
       (slugify_city_name city.city_name, y) ∈ acc.2 →
       stepWindow fetchA dv mr bd sd ed acc city y = acc)
    ∧ (∀ (cities : List City) (sd ed : Date) (fA1 fA2 : FetchOracle)
        (dv1 dv2 : List String) (mr1 mr2 : Nat) (bd1 bd2 : ℚ)
        (fs0 : Artifacts),
        1 ≤ mr1 →
        (∀ (city : City) (ys ye : Date),
          ∃ p, attemptFetch (fA1 city ys ye) dv1 1 = .ok p) →
        (run_backfill cities sd ed fA2 dv2 mr2 bd2
            (run_backfill cities sd ed fA1 dv1 mr1 bd1 fs0).2).1.total_requests
          = 0
        ∧ (run_backfill cities sd ed fA2 dv2 mr2 bd2
            (run_backfill cities sd ed fA1 dv1 mr1 bd1 fs0).2).2 =
          (run_backfill cities sd ed fA1 dv1 mr1 bd1 fs0).2)
    ∧ (∀ (cities : List City) (today : Date) (fetchA : FetchOracle)
        (dv : List String) (mr : Nat) (bd : ℚ) (fs0 : Artifacts),
        Date.ltB (predDate today) { year := today.year, month := 1, day := 1 }
          = false →
        (run_recent cities today fetchA dv mr bd fs0).1.total_requests =
          cities.length)
    ∧ (∀ (cities : List City) (today : Date) (fetchA : FetchOracle)
        (dv : List String) (mr : Nat) (bd : ℚ) (fs0 : Artifacts),
        Date.ltB (predDate today) { year := today.year, month := 1, day := 1 }
          = false →
        1 ≤ mr →
        (∀ (city : City) (s e : Date),
          ∃ p, attemptFetch (fetchA city s e) dv 1 = .ok p) →
        ∀ city ∈ cities,
          (slugify_city_name city.city_name, today.year) ∈
            (run_recent cities today fetchA dv mr bd fs0).2) := by
  refine ⟨?_, ?_, ?_, ?_⟩
  · intro fetchA dv mr bd sd ed acc city y hmem
    unfold stepWindow
    dsimp only
    by_cases h1 : Date.ltB (clamp_year_window sd ed y).2
        (clamp_year_window sd ed y).1 = true
    · rw [if_pos h1]
    · rw [if_neg h1, if_pos hmem]
  · intro cities sd ed fA1 fA2 dv1 dv2 mr1 mr2 bd1 bd2 fs0 hmr hall
    have hcov : ∀ city ∈ cities, ∀ y ∈ year_range sd ed,
        windowActive sd ed y = true →
        (slugify_city_name city.city_name, y) ∈
          (run_backfill cities sd ed fA1 dv1 mr1 bd1 fs0).2 := by
      intro city hc y hy hw
      exact backfill_covers hmr hall cities (Tally.init, fs0) city hc y hy hw
    generalize hg : (run_backfill cities sd ed fA1 dv1 mr1 bd1 fs0).2 = fs1
      at hcov ⊢
    have hskip := @backfill_allskip fA2 dv2 mr2 bd2 sd ed (year_range sd ed)
      cities (Tally.init, fs1) hcov
    constructor
    · unfold run_backfill
      dsimp only
      rw [hskip]
      rfl
    · unfold run_backfill
      dsimp only
      rw [hskip]
  · intro cities today fetchA dv mr bd fs0 h
    unfold run_recent
    dsimp only
    rw [if_neg (by simp [h])]
    dsimp only
    rw [recent_fold_total]
    simp [Tally.init]
  · intro cities today fetchA dv mr bd fs0 h hmr hall city hc
    unfold run_recent
    dsimp only
    rw [if_neg (by simp [h])]
    dsimp only
    exact recent_covers hmr hall cities (Tally.init, fs0) city hc

/-- Witness for C7 with one city: an existing (lisbon, 2023) artifact is
skipped without touching the counters; a second backfill over the window
2023-07-01 to 2024-02-01 after a fully successful first run makes zero
requests; recent mode on 2026-05-10 makes one request whether or not the
current-year artifact exists, and on success materializes it. -/
theorem backfill_idempotent_recent_always_requests_witness :
    stepWindow (fun _ _ _ _ => .error "never") ["temperature_2m_max"] 3
        (1 / 2) { year := 2023, month := 1, day := 1 }
        { year := 2023, month := 12, day := 31 }
        (Tally.init, [(slugify_city_name cityLisbon.city_name, 2023)])
        cityLisbon 2023 =
      (Tally.init, [(slugify_city_name cityLisbon.city_name, 2023)])
    ∧ (run_backfill [cityLisbon] { year := 2023, month := 7, day := 1 }
        { year := 2024, month := 2, day := 1 } (fun _ _ _ _ => .error "down")
        ["temperature_2m_max"] 3 (1 / 2)
        (run_backfill [cityLisbon] { year := 2023, month := 7, day := 1 }
          { year := 2024, month := 2, day := 1 }
          (fun _ _ _ _ => .ok goodPayload) ["temperature_2m_max"] 3 (1 / 2)
          []).2).1.total_requests = 0
    ∧ (run_recent [cityLisbon] { year := 2026, month := 5, day := 10 }
        (fun _ _ _ _ => .error "down") ["temperature_2m_max"] 3 (1 / 2)
        []).1.total_requests = 1
    ∧ (run_recent [cityLisbon] { year := 2026, month := 5, day := 10 }
        (fun _ _ _ _ => .error "down") ["temperature_2m_max"] 3 (1 / 2)
        [("lisbon", 2026)]).1.total_requests = 1
    ∧ (slugify_city_name cityLisbon.city_name, 2026) ∈ (run_recent [cityLisbon]
        { year := 2026, month := 5, day := 10 }
        (fun _ _ _ _ => .ok goodPayload) ["temperature_2m_max"] 3 (1 / 2)
        []).2 := by
  refine ⟨backfill_idempotent_recent_always_requests.1
      (fun _ _ _ _ => .error "never") ["temperature_2m_max"] 3 (1 / 2)
      { year := 2023, month := 1, day := 1 }
      { year := 2023, month := 12, day := 31 }
      (Tally.init, [(slugify_city_name cityLisbon.city_name, 2023)])
      cityLisbon 2023 (List.mem_cons_self _ _),
    (backfill_idempotent_recent_always_requests.2.1 [cityLisbon]
      { year := 2023, month := 7, day := 1 }
      { year := 2024, month := 2, day := 1 }
      (fun _ _ _ _ => .ok goodPayload) (fun _ _ _ _ => .error "down")
      ["temperature_2m_max"] ["temperature_2m_max"] 3 3 (1 / 2) (1 / 2) []
      (by decide) (fun _ _ _ => ⟨(goodPayload, 1), rfl⟩)).1,
    backfill_idempotent_recent_always_requests.2.2.1 [cityLisbon]
      { year := 2026, month := 5, day := 10 } (fun _ _ _ _ => .error "down")
      ["temperature_2m_max"] 3 (1 / 2) [] rfl,
    backfill_idempotent_recent_always_requests.2.2.1 [cityLisbon]
      { year := 2026, month := 5, day := 10 } (fun _ _ _ _ => .error "down")
      ["temperature_2m_max"] 3 (1 / 2) [("lisbon", 2026)] rfl,
    backfill_idempotent_recent_always_requests.2.2.2 [cityLisbon]
      { year := 2026, month := 5, day := 10 }
      (fun _ _ _ _ => .ok goodPayload) ["temperature_2m_max"] 3 (1 / 2) []
      rfl (by decide) (fun _ _ _ => ⟨(goodPayload, 1), rfl⟩) cityLisbon
      (List.mem_cons_self cityLisbon [])⟩

end Climate
